import Mathlib

/-!
# Water balance of the G'DAY model: `src/water_balance.c`

A shallow embedding of the soil water bucket, the soil moisture stress models, the
Penman-Monteith transpiration routines, interception, soil evaporation, the soil texture
tables with the initialisation that reads them, and the step `calculate_water_balance`,
with the properties the specification states about them.

Modelling conventions.

* A C `double` is an element of a linearly ordered field `α`; arithmetic is exact (no
  rounding, no NaN, no infinities), and `x / 0` is `0` as in any Lean field: a statement
  about a quotient speaks about the C program where the divisor is not zero. Where a
  bound on a result depends on a divisor being non-zero, the function is given again with
  checked quotients (`quotient`), which have no value at a zero divisor. The definitions
  run on `ℚ`; statements about `exp` and `pow` are made on `ℝ`.
* The C math library is the parameter `Libm α`; `Libm.real` is its reading on `ℝ`.
* `float_eq` and the numeric constants come from headers that are not part of
  `water_balance.c`; they are parameters (`float_eq`, `consts`).
* A function that writes through pointers returns the written values as a record.
* A fatal `prog_error` is the result `Except.error`; a function that can raise it returns
  `Except String _`.
* A local variable that the C code reads without assigning it is an extra argument of the
  function that reads it.
-/

namespace GDAY

/-- The routines of the C math library used by `water_balance.c`. -/
structure Libm (α : Type) where
  exp : α → α
  log : α → α
  sqrt : α → α
  pow : α → α → α

/-- The C math library read on the real numbers: `pow` is the real power function, which
agrees with C `pow` on a non-negative base with a positive exponent. -/
noncomputable def Libm.real : Libm ℝ where
  exp := Real.exp
  log := Real.log
  sqrt := Real.sqrt
  pow := fun x y => x ^ y

/-- Numeric constants of the model headers used by `water_balance.c`. -/
structure consts (α : Type) where
  DEG_TO_KELVIN : α
  MM_TO_M : α
  RGAS : α
  GRAMS_C_TO_MOL_C : α
  MOL_TO_UMOL : α
  KPA_2_PA : α
  PAR_2_SW : α
  MOLE_WATER_2_G_WATER : α
  G_TO_KG : α
  SEC_2_HLFHR : α
  H2OLV0 : α
  H2OMW : α
  CP : α
  MASS_AIR : α

/-- The fields of `control` read by `water_balance.c` (C `int` flags). -/
structure control where
  sub_daily : Int
  hrly_idx : Nat
  water_stress : Int
  sw_stress_model : Int
  calc_sw_params : Int

/-- The fields of `params` read or written by `water_balance.c`. -/
structure params (α : Type) where
  fractup_soil : α
  wcapac_topsoil : α
  wcapac_root : α
  intercep_frac : α
  max_intercep_lai : α
  albedo : α
  leaf_width : α
  g1 : α
  dz0v_dh : α
  z0h_z0m : α
  displace_ratio : α
  qs : α
  ctheta_topsoil : α
  ntheta_topsoil : α
  ctheta_root : α
  ntheta_root : α
  topsoil_type : String
  rootsoil_type : String
  topsoil_depth : α
  rooting_depth : α
  theta_sat_topsoil : α
  b_topsoil : α
  psi_sat_topsoil : α
  theta_sat_root : α
  b_root : α
  psi_sat_root : α

/-- The fields of `state` read or written by `water_balance.c`. -/
structure state (α : Type) where
  pawater_topsoil : α
  pawater_root : α
  wtfac_topsoil : α
  wtfac_root : α
  delta_sw_store : α
  lai : α
  canht : α
  psi_sat_topsoil : α
  theta_sat_topsoil : α
  b_topsoil : α
  psi_sat_root : α
  theta_sat_root : α
  b_root : α

/-- The fields of `fluxes` read or written by `water_balance.c`. -/
structure fluxes (α : Type) where
  gpp_gCm2 : α
  gpp_am : α
  gpp_pm : α
  omega : α
  gs_mol_m2_sec : α
  ga_mol_m2_sec : α
  transpiration : α
  soil_evap : α
  et : α
  interception : α
  runoff : α

variable {α : Type} [LinearOrderedField α]

/-- `calc_sw_modifier`: the Landsberg and Waring soil water modifier. -/
def calc_sw_modifier (m : Libm α) (theta c_theta n_theta : α) : α :=
  1.0 / (1.0 + m.pow ((1.0 - theta) / c_theta) n_theta)

/-- The matric potential of one layer in stress model 2 of `calculate_soil_water_fac`:
`-1.5` when `float_eq(smc, 0.0)`, else `psi_sat * pow(smc / theta_sat, b)`. -/
def psi_swp (m : Libm α) (float_eq : α → α → Bool) (smc psi_sat theta_sat b : α) : α :=
  if float_eq smc 0.0 then
    -1.5
  else
    let arg1 := psi_sat
    let arg2 := smc / theta_sat
    let arg3 := b
    arg1 * m.pow arg2 arg3

/-- `calculate_soil_water_fac`: the water availability factors of the topsoil and of the
root zone, from the storage fractions, under the stress model selected in `control`. For a
selector other than 0, 1 and 2 the state is left as it is. -/
def calculate_soil_water_fac (m : Libm α) (float_eq : α → α → Bool) (c : control)
    (p : params α) (s : state α) : state α :=
  let smc_topsoil := s.pawater_topsoil / p.wcapac_topsoil
  let smc_root := s.pawater_root / p.wcapac_root
  if c.sw_stress_model = 0 then
    { s with
      wtfac_topsoil := m.pow smc_topsoil p.qs
      wtfac_root := m.pow smc_root p.qs }
  else if c.sw_stress_model = 1 then
    { s with
      wtfac_topsoil := calc_sw_modifier m smc_topsoil p.ctheta_topsoil p.ntheta_topsoil
      wtfac_root := calc_sw_modifier m smc_root p.ctheta_root p.ntheta_root }
  else if c.sw_stress_model = 2 then
    let psi_swp_topsoil :=
      psi_swp m float_eq smc_topsoil s.psi_sat_topsoil s.theta_sat_topsoil s.b_topsoil
    let psi_swp_root := psi_swp m float_eq smc_root s.psi_sat_root s.theta_sat_root s.b_root
    let b : α := 0.66
    { s with
      wtfac_topsoil := m.exp (b * psi_swp_topsoil)
      wtfac_root := m.exp (b * psi_swp_root) }
  else
    s

/-- What `update_water_storage` leaves behind: the state, and the values behind the
pointers `transpiration`, `soil_evap`, `et` and `runoff`. -/
structure storage_update (α : Type) where
  s : state α
  transpiration : α
  soil_evap : α
  et : α
  runoff : α

/-- The root pool of `update_water_storage` right after the fluxes are added to it, before
runoff is removed and before any clamp. -/
def root_before_runoff (s : state α) (rain interception transpiration soil_evap : α) : α :=
  s.pawater_root + ((rain - interception) - transpiration - soil_evap)

/-- The root pool of `update_water_storage` once runoff has been removed from it, as the
shutdown test and the bounds clamp find it. -/
def root_after_runoff (p : params α) (s : state α)
    (rain interception transpiration soil_evap : α) : α :=
  let root := root_before_runoff s rain interception transpiration soil_evap
  let runoff := if root > p.wcapac_root then root - p.wcapac_root else 0.0
  if root > p.wcapac_root then root - runoff else root

/-- `update_water_storage`: the two-layer bucket update, runoff, the water-limited
shutdown, the recorded change of root storage and the stress factors. -/
def update_water_storage (m : Libm α) (float_eq : α → α → Bool) (c : control)
    (p : params α) (s : state α) (rain interception transpiration soil_evap et : α) :
    storage_update α :=
  let trans_frac := p.fractup_soil * s.wtfac_topsoil
  let topsoil := s.pawater_topsoil +
    ((rain - interception) - (transpiration * trans_frac) - soil_evap)
  let topsoil :=
    if topsoil < 0.0 then 0.0
    else if topsoil > p.wcapac_topsoil then p.wcapac_topsoil
    else topsoil
  let previous := s.pawater_root
  let root := root_before_runoff s rain interception transpiration soil_evap
  let runoff := if root > p.wcapac_root then root - p.wcapac_root else 0.0
  let root := root_after_runoff p s rain interception transpiration soil_evap
  let transpiration := if root < 0.0 then 0.0 else transpiration
  let soil_evap := if root < 0.0 then 0.0 else soil_evap
  let et := if root < 0.0 then interception else et
  let root :=
    if root < 0.0 then 0.0
    else if root > p.wcapac_root then p.wcapac_root
    else root
  let s1 : state α :=
    { s with
      pawater_topsoil := topsoil
      pawater_root := root
      delta_sw_store := root - previous }
  let s2 : state α :=
    if c.water_stress ≠ 0 then
      calculate_soil_water_fac m float_eq c p s1
    else
      { s1 with wtfac_topsoil := 1.0, wtfac_root := 1.0 }
  { s := s2, transpiration := transpiration, soil_evap := soil_evap, et := et,
    runoff := runoff }

/-- `calc_latent_heat_of_vapourisation`: latent heat of water vaporisation [MJ kg-1]. -/
def calc_latent_heat_of_vapourisation (tavg : α) : α :=
  2.501 - 0.002361 * tavg

/-- `calc_pyschrometric_constant`: psychrometric constant [kPa degC-1]. -/
def calc_pyschrometric_constant (lambdax press : α) : α :=
  let cp : α := 1.013E-3
  let epsilon : α := 0.6222
  (cp * press) / (epsilon * lambdax)

/-- `calc_slope_of_saturation_vapour_pressure_curve`: eqn 13 of the FAO paper. At
`tavg = -237.3` the divisors are 0; the variant with checked quotients below has no value
there. -/
def calc_slope_of_saturation_vapour_pressure_curve (m : Libm α) (tavg : α) : α :=
  let t := tavg + 237.3
  let arg1 := 4098.0 * (0.6108 * m.exp ((17.27 * tavg) / t))
  let arg2 := t * t
  arg1 / arg2

/-- `calc_density_of_air`: density of air [kg m-3]. -/
def calc_density_of_air (tavg : α) : α :=
  1.292 - (0.00428 * tavg)

/-- The values `penman_monteith` writes behind `omega` and `et`. -/
structure pm_result (α : Type) where
  omega : α
  et : α

/-- `penman_monteith`: water loss from the canopy and the decoupling coefficient. -/
def penman_monteith (m : Libm α) (vpd gs net_rad tavg press ga : α) : pm_result α :=
  let cp : α := 1.013E-3
  let lambdax := calc_latent_heat_of_vapourisation tavg
  let gamma := calc_pyschrometric_constant lambdax press
  let slope := calc_slope_of_saturation_vapour_pressure_curve m tavg
  let rho := calc_density_of_air tavg
  if gs > 0.0 then
    let e := slope / gamma
    let omega := (e + 1.0) / (e + 1.0 + (ga / gs))
    let arg1 := (slope * net_rad) + (rho * cp * vpd * ga)
    let arg2 := slope + gamma * (1.0 + (ga / gs))
    { omega := omega, et := (arg1 / arg2) / lambdax }
  else
    { omega := 0.0, et := 0.0 }

/-- `calc_stomatal_conductance`: stomatal conductance [mol m-2 s-1] of the Medlyn model. -/
def calc_stomatal_conductance (k : consts α) (m : Libm α) (g1 wtfac vpd ca daylen gpp : α) :
    α :=
  let DAY_2_SEC := 1.0 / (60.0 * 60.0 * daylen)
  let gpp_umol_m2_sec := gpp * k.GRAMS_C_TO_MOL_C * k.MOL_TO_UMOL * DAY_2_SEC
  let arg1 := 1.6 * (1.0 + (g1 * wtfac) / m.sqrt vpd)
  let arg2 := gpp_umol_m2_sec / ca
  arg1 * arg2

/-- `canopy_boundary_layer_conductance`: canopy boundary layer conductance [m s-1]. -/
def canopy_boundary_layer_conductance (m : Libm α) (p : params α) (wind canht : α) : α :=
  let vk : α := 0.41
  let z0m := p.dz0v_dh * canht
  let z0h := p.z0h_z0m * z0m
  let d := p.displace_ratio * canht
  let arg1 := (vk * vk) * wind
  let arg2 := m.log ((canht - d) / z0m)
  let arg3 := m.log ((canht - d) / z0h)
  arg1 / (arg2 * arg3)

/-- `calc_transpiration_penmon`: canopy transpiration over the whole day; writes
`gs_mol_m2_sec`, `ga_mol_m2_sec` and `transpiration` into the flux record. -/
def calc_transpiration_penmon (k : consts α) (m : Libm α) (f : fluxes α) (p : params α)
    (s : state α) (vpd net_rad tavg wind ca daylen press : α) : fluxes α :=
  let SEC_2_DAY := 60.0 * 60.0 * daylen
  let gs_mol_m2_sec :=
    calc_stomatal_conductance k m p.g1 s.wtfac_root vpd ca daylen f.gpp_gCm2
  let tk := tavg + k.DEG_TO_KELVIN
  let MOL_SEC_2_M_PER_SEC := k.MM_TO_M / (press / (k.RGAS * tk))
  let M_PER_SEC_2_MOL_SEC := 1.0 / MOL_SEC_2_M_PER_SEC
  let gs_m_per_sec := gs_mol_m2_sec * MOL_SEC_2_M_PER_SEC
  let ga_m_per_sec := canopy_boundary_layer_conductance m p wind s.canht
  let r := penman_monteith m vpd gs_m_per_sec net_rad tavg press ga_m_per_sec
  { f with
    gs_mol_m2_sec := gs_mol_m2_sec
    ga_mol_m2_sec := ga_m_per_sec * M_PER_SEC_2_MOL_SEC
    transpiration := r.et * SEC_2_DAY }

/-- The values `calc_transpiration_penmon_am_pm` writes behind its four pointers. -/
structure am_pm_result (α : Type) where
  trans : α
  omega : α
  gs_mol_m2_hfday : α
  ga_mol_m2_hfday : α

/-- `calc_transpiration_penmon_am_pm`: canopy transpiration over one half of the day. -/
def calc_transpiration_penmon_am_pm (k : consts α) (m : Libm α) (p : params α)
    (s : state α) (net_rad wind ca daylen press vpd tair gpp : α) : am_pm_result α :=
  let half_day := daylen / 2.0
  let SEC_2_HALF_DAY := 60.0 * 60.0 * half_day
  let Tk := tair + k.DEG_TO_KELVIN
  let MOL_SEC_2_M_PER_SEC := k.MM_TO_M / (press / (k.RGAS * Tk))
  let M_PER_SEC_2_MOL_SEC := 1.0 / MOL_SEC_2_M_PER_SEC
  let ga_m_per_sec := canopy_boundary_layer_conductance m p wind s.canht
  let gs_mol_m2_sec :=
    calc_stomatal_conductance k m p.g1 s.wtfac_root vpd ca half_day gpp
  let ga_mol_m2_hfday := ga_m_per_sec * M_PER_SEC_2_MOL_SEC * SEC_2_HALF_DAY
  let gs_mol_m2_hfday := gs_mol_m2_sec * SEC_2_HALF_DAY
  let gs_m_per_sec := gs_mol_m2_sec * MOL_SEC_2_M_PER_SEC
  let r := penman_monteith m vpd gs_m_per_sec net_rad tair press ga_m_per_sec
  { trans := r.et * SEC_2_HALF_DAY, omega := r.omega,
    gs_mol_m2_hfday := gs_mol_m2_hfday, ga_mol_m2_hfday := ga_mol_m2_hfday }

/-- Modelled from the spec: the macro `MIN` is defined in a header that is not part of
`water_balance.c`; the spec reads its use as `min(1, LAI/LAI_max)`. -/
def MIN (a b : α) : α :=
  if a < b then a else b

/-- Modelled from the spec: the macro `MAX` is defined in a header that is not part of
`water_balance.c`; the spec reads its use as a clamp of net radiation to `≥ 0`. -/
def MAX (a b : α) : α :=
  if a > b then a else b

/-- `calc_infiltration`: the rain intercepted by the canopy. -/
def calc_infiltration (p : params α) (s : state α) (rain : α) : α :=
  if s.lai > 0.0 then
    rain * p.intercep_frac * MIN 1.0 (s.lai / p.max_intercep_lai)
  else
    0.0

/-- `calc_sat_water_vapour_press`: saturated water vapour pressure (Pa) at `tac` Celsius. -/
def calc_sat_water_vapour_press (m : Libm α) (tac : α) : α :=
  613.75 * m.exp (17.502 * tac / (240.97 + tac))

/-- The latent heat of water vapour at air temperature (J mol-1), as `calc_soil_evaporation`
computes it. -/
def soil_evap_lambda (k : consts α) (tair : α) : α :=
  (k.H2OLV0 - 2.365E3 * tair) * k.H2OMW

/-- The psychrometric constant as `calc_soil_evaporation` computes it. -/
def soil_evap_gamma (k : consts α) (press tair : α) : α :=
  k.CP * k.MASS_AIR * press / soil_evap_lambda k tair

/-- The slope of the saturation vapour pressure curve as `calc_soil_evaporation` computes
it: a finite difference over 0.1 degrees. -/
def soil_evap_slope (m : Libm α) (tair : α) : α :=
  let arg1 := calc_sat_water_vapour_press m (tair + 0.1)
  let arg2 := calc_sat_water_vapour_press m tair
  (arg1 - arg2) / 0.1

/-- `calc_soil_evaporation`: top soil evaporation by the Penman equation, reduced under a
canopy and in a dry topsoil (mol H2O m-2 s-1). -/
def calc_soil_evaporation (k : consts α) (m : Libm α) (p : params α) (s : state α)
    (sw_rad press tair : α) : α :=
  let lambda := soil_evap_lambda k tair
  let gamma := soil_evap_gamma k press tair
  let slope := soil_evap_slope m tair
  let net_lw := 107.0 - 0.3 * tair
  let net_rad := MAX 0.0 ((1.0 - p.albedo) * sw_rad - net_lw)
  let soil_evap := ((slope / (slope + gamma)) * net_rad) / lambda
  let soil_evap := if s.lai > 0.0 then soil_evap * m.exp (-0.398 * s.lai) else soil_evap
  soil_evap * s.wtfac_topsoil

/-- Modelled from the spec: `prog_error` is defined outside `water_balance.c`; the spec
calls an unrecognised texture class a fatal configuration error that terminates the run.
The run ends with the message and yields no value. -/
def prog_error {β : Type} (msg : String) : Except String β :=
  Except.error msg

/-- The array `fsoil` of three texture fractions, in the order the comment of
`get_soil_fracs` gives: silt at index 0, sand at index 1, clay at index 2. Modelled from
the spec: the index macros `SILT`, `SAND` and `CLAY` are defined in a header that is not
part of `water_balance.c`. -/
structure soil_fracs (α : Type) where
  silt : α
  sand : α
  clay : α

/-- `get_soil_fracs`: the texture fractions of a soil class (Cosby et al. 1984, table 2);
any other name is a fatal error. -/
def get_soil_fracs (soil_type : String) : Except String (soil_fracs α) :=
  if soil_type = "sand" then
    Except.ok { silt := 0.05, sand := 0.92, clay := 0.03 }
  else if soil_type = "loamy_sand" then
    Except.ok { silt := 0.12, sand := 0.82, clay := 0.06 }
  else if soil_type = "sandy_loam" then
    Except.ok { silt := 0.32, sand := 0.58, clay := 0.1 }
  else if soil_type = "loam" then
    Except.ok { silt := 0.39, sand := 0.43, clay := 0.18 }
  else if soil_type = "silty_loam" then
    Except.ok { silt := 0.7, sand := 0.17, clay := 0.13 }
  else if soil_type = "sandy_clay_loam" then
    Except.ok { silt := 0.15, sand := 0.58, clay := 0.27 }
  else if soil_type = "clay_loam" then
    Except.ok { silt := 0.34, sand := 0.32, clay := 0.34 }
  else if soil_type = "silty_clay_loam" then
    Except.ok { silt := 0.56, sand := 0.1, clay := 0.34 }
  else if soil_type = "sandy_clay" then
    Except.ok { silt := 0.06, sand := 0.52, clay := 0.42 }
  else if soil_type = "silty_clay" then
    Except.ok { silt := 0.47, sand := 0.06, clay := 0.47 }
  else if soil_type = "clay" then
    Except.ok { silt := 0.2, sand := 0.22, clay := 0.58 }
  else
    prog_error "Could not understand soil type"

/-- The values `get_soil_params` writes behind `c_theta` and `n_theta`. -/
structure sw_coeffs (α : Type) where
  c_theta : α
  n_theta : α

/-- `get_soil_params`: the Landsberg and Waring coefficients of a soil class; any other
name is a fatal error. -/
def get_soil_params (soil_type : String) : Except String (sw_coeffs α) :=
  if soil_type = "clay" then
    Except.ok { c_theta := 0.4, n_theta := 3.0 }
  else if soil_type = "clay_loam" then
    Except.ok { c_theta := 0.5, n_theta := 5.0 }
  else if soil_type = "loam" then
    Except.ok { c_theta := 0.55, n_theta := 6.0 }
  else if soil_type = "loamy_sand" then
    Except.ok { c_theta := 0.65, n_theta := 8.0 }
  else if soil_type = "sand" then
    Except.ok { c_theta := 0.7, n_theta := 9.0 }
  else if soil_type = "sandy_clay" then
    Except.ok { c_theta := 0.45, n_theta := 4.0 }
  else if soil_type = "sandy_clay_loam" then
    Except.ok { c_theta := 0.525, n_theta := 5.5 }
  else if soil_type = "sandy_loam" then
    Except.ok { c_theta := 0.6, n_theta := 7.0 }
  else if soil_type = "silt" then
    Except.ok { c_theta := 0.625, n_theta := 7.5 }
  else if soil_type = "silty_clay" then
    Except.ok { c_theta := 0.425, n_theta := 3.5 }
  else if soil_type = "silty_clay_loam" then
    Except.ok { c_theta := 0.475, n_theta := 4.5 }
  else if soil_type = "silty_loam" then
    Except.ok { c_theta := 0.575, n_theta := 6.5 }
  else
    prog_error "There are no parameters for your soil type"

/-- The values `calc_soil_params` writes behind its five pointers. -/
structure soil_params (α : Type) where
  theta_fc : α
  theta_wp : α
  theta_sp : α
  b : α
  psi_sat_mpa : α

/-- The saturated matric potential in metres of head, the local `psi_sat` of
`calc_soil_params`. -/
def soil_psi_sat (m : Libm α) (fsoil : soil_fracs α) : α :=
  0.01 * -(m.pow 10.0 (1.54 - 0.95 * fsoil.sand + 0.63 * fsoil.silt))

/-- `calc_soil_params`: the Cosby parameters of the Clapp and Hornberger scheme from the
texture fractions. -/
def calc_soil_params (m : Libm α) (fsoil : soil_fracs α) : soil_params α :=
  let pressure_head_wilt : α := -152.9
  let pressure_head_crit : α := -3.364
  let b := 3.1 + 15.7 * fsoil.clay - 0.3 * fsoil.sand
  let psi_sat := soil_psi_sat m fsoil
  let KPA_2_MPA : α := 0.001
  let METER_OF_HEAD_TO_MPA := 9.81 * KPA_2_MPA
  let psi_sat_mpa := psi_sat * METER_OF_HEAD_TO_MPA
  let theta_sp := 0.505 - 0.037 * fsoil.clay - 0.142 * fsoil.sand
  let theta_wp := theta_sp * m.pow (psi_sat / pressure_head_wilt) (1.0 / b)
  let theta_fc := theta_sp * m.pow (psi_sat / pressure_head_crit) (1.0 / b)
  { theta_fc := theta_fc, theta_wp := theta_wp, theta_sp := theta_sp, b := b,
    psi_sat_mpa := psi_sat_mpa }

/-- The first half of `initialise_soil_moisture_parameters`: with `calc_sw_params` on, the
soil hydraulic properties and the water holding capacities of both layers from their
texture classes. -/
def initialise_capacities (m : Libm α) (c : control) (p : params α) :
    Except String (params α) :=
  if c.calc_sw_params ≠ 0 then
    match get_soil_fracs p.topsoil_type, get_soil_fracs p.rootsoil_type with
    | Except.ok fsoil_top, Except.ok fsoil_root =>
      let top := calc_soil_params m fsoil_top
      let p1 : params α :=
        { p with
          theta_sat_topsoil := top.theta_sp
          b_topsoil := top.b
          psi_sat_topsoil := top.psi_sat_mpa
          wcapac_topsoil := p.topsoil_depth * (top.theta_fc - top.theta_wp) }
      let root := calc_soil_params m fsoil_root
      Except.ok
        { p1 with
          theta_sat_root := root.theta_sp
          b_root := root.b
          psi_sat_root := root.psi_sat_mpa
          wcapac_root := p1.rooting_depth * (root.theta_fc - root.theta_wp) }
    | Except.error e, _ => Except.error e
    | Except.ok _, Except.error e => Except.error e
  else
    Except.ok p

/-- The second half of `initialise_soil_moisture_parameters`: the Landsberg and Waring
coefficients are looked up when all four hold a value below `-900`. -/
def initialise_sw_modifier (p : params α) : Except String (params α) :=
  if p.ctheta_topsoil < -900.0 ∧ p.ntheta_topsoil < -900.0 ∧
      p.ctheta_root < -900.0 ∧ p.ntheta_root < -900.0 then
    match get_soil_params p.topsoil_type with
    | Except.error e => Except.error e
    | Except.ok top =>
      let p1 : params α := { p with ctheta_topsoil := top.c_theta, ntheta_topsoil := top.n_theta }
      match get_soil_params p1.rootsoil_type with
      | Except.error e => Except.error e
      | Except.ok root =>
        Except.ok { p1 with ctheta_root := root.c_theta, ntheta_root := root.n_theta }
  else
    Except.ok p

/-- `initialise_soil_moisture_parameters`: the parameters after initialisation, or the
fatal error of an unrecognised texture class. -/
def initialise_soil_moisture_parameters (m : Libm α) (c : control) (p : params α) :
    Except String (params α) :=
  match initialise_capacities m c p with
  | Except.error e => Except.error e
  | Except.ok p1 => initialise_sw_modifier p1

/-- `sum_hourly_water_fluxes`: add the fluxes of one sub-daily step to the day totals. -/
def sum_hourly_water_fluxes (f : fluxes α) (soil_evap_hlf_hr transpiration_hlf_hr et_hlf_hr
    interception_hlf_hr runoff_hlf_hr : α) : fluxes α :=
  { f with
    soil_evap := f.soil_evap + soil_evap_hlf_hr
    transpiration := f.transpiration + transpiration_hlf_hr
    et := f.et + et_hlf_hr
    interception := f.interception + interception_hlf_hr
    runoff := f.runoff + runoff_hlf_hr }

/-- `update_daily_water_struct`: store the fluxes of a daily step. -/
def update_daily_water_struct (f : fluxes α) (day_soil_evap day_transpiration day_et
    day_interception day_runoff : α) : fluxes α :=
  { f with
    soil_evap := day_soil_evap
    transpiration := day_transpiration
    et := day_et
    interception := day_interception
    runoff := day_runoff }

/-- `zero_water_day_fluxes`: reset the day totals. -/
def zero_water_day_fluxes (f : fluxes α) : fluxes α :=
  { f with
    et := 0.0
    soil_evap := 0.0
    transpiration := 0.0
    interception := 0.0
    runoff := 0.0
    gs_mol_m2_sec := 0.0 }

/-- The arguments of one call of `sum_hourly_water_fluxes`. -/
structure hourly_fluxes (α : Type) where
  soil_evap : α
  transpiration : α
  et : α
  interception : α
  runoff : α

/-- A day of sub-daily steps: `sum_hourly_water_fluxes` called once for each entry of
`steps`, in order, starting from the record `f`. -/
def accumulate_hourly (f : fluxes α) (steps : List (hourly_fluxes α)) : fluxes α :=
  steps.foldl
    (fun g h => sum_hourly_water_fluxes g h.soil_evap h.transpiration h.et h.interception
      h.runoff)
    f

/-- The forcing arrays of `met` read by `calculate_water_balance`, each a series indexed
by the day or by the sub-daily step. -/
structure met (α : Type) where
  rain : Nat → α
  press : Nat → α
  tair : Nat → α
  par : Nat → α
  co2 : Nat → α
  tam : Nat → α
  tpm : Nat → α
  sw_rad : Nat → α
  sw_rad_am : Nat → α
  sw_rad_pm : Nat → α
  vpd_avg : Nat → α
  vpd_am : Nat → α
  vpd_pm : Nat → α
  wind_am : Nat → α
  wind_pm : Nat → α
  wind : Nat → α

/-- `calculate_water_balance`: one step of the water balance; returns the flux record and
the state it leaves. The C function declares the locals `net_rad_am` and `net_rad_pm` and
passes them to `calc_transpiration_penmon_am_pm` without ever assigning them; the values
they happen to hold are the last two arguments here. `daylen` is a C `int`. -/
def calculate_water_balance (k : consts α) (m : Libm α) (float_eq : α → α → Bool)
    (c : control) (f : fluxes α) (mt : met α) (p : params α) (s : state α)
    (day_idx : Nat) (daylen : Int) (trans_leaf : α) (net_rad_am net_rad_pm : α) :
    fluxes α × state α :=
  let rain := if c.sub_daily ≠ 0 then mt.rain c.hrly_idx else mt.rain day_idx
  let press :=
    if c.sub_daily ≠ 0 then mt.press c.hrly_idx * k.KPA_2_PA
    else mt.press day_idx * k.KPA_2_PA
  let tair := if c.sub_daily ≠ 0 then mt.tair c.hrly_idx else mt.tair day_idx
  let sw_rad :=
    if c.sub_daily ≠ 0 then mt.par c.hrly_idx * k.PAR_2_SW else mt.sw_rad day_idx
  let ca := mt.co2 day_idx
  let tair_am := mt.tam day_idx
  let tair_pm := mt.tpm day_idx
  let vpd_am := mt.vpd_am day_idx
  let vpd_pm := mt.vpd_pm day_idx
  let wind_am := mt.wind_am day_idx
  let wind_pm := mt.wind_pm day_idx
  let interception := calc_infiltration p s rain
  let soil_evap := calc_soil_evaporation k m p s sw_rad press tair
  let soil_evap :=
    if c.sub_daily ≠ 0 then
      soil_evap * (k.MOLE_WATER_2_G_WATER * k.G_TO_KG * k.SEC_2_HLFHR)
    else
      soil_evap * (k.MOLE_WATER_2_G_WATER * k.G_TO_KG * (60.0 * 60.0 * (daylen : α)))
  let gpp_am := f.gpp_am
  let gpp_pm := f.gpp_pm
  let am := calc_transpiration_penmon_am_pm k m p s net_rad_am wind_am ca (daylen : α)
    press vpd_am tair_am gpp_am
  let pm := calc_transpiration_penmon_am_pm k m p s net_rad_pm wind_pm ca (daylen : α)
    press vpd_pm tair_pm gpp_pm
  let DAY_2_SEC := 1.0 / (60.0 * 60.0 * (daylen : α))
  let f1 : fluxes α :=
    if c.sub_daily ≠ 0 then f
    else
      { f with
        omega := (am.omega + pm.omega) / 2.0
        gs_mol_m2_sec := (am.gs_mol_m2_hfday + pm.gs_mol_m2_hfday) * DAY_2_SEC
        ga_mol_m2_sec := (am.ga_mol_m2_hfday + pm.ga_mol_m2_hfday) * DAY_2_SEC }
  let transpiration :=
    if c.sub_daily ≠ 0 then
      trans_leaf * k.MOLE_WATER_2_G_WATER * k.G_TO_KG * k.SEC_2_HLFHR
    else
      am.trans + pm.trans
  let et := transpiration + soil_evap + interception
  let r := update_water_storage m float_eq c p s rain interception transpiration soil_evap et
  let f2 : fluxes α :=
    if c.sub_daily ≠ 0 then
      sum_hourly_water_fluxes f1 r.soil_evap r.transpiration r.et interception r.runoff
    else
      update_daily_water_struct f1 r.soil_evap r.transpiration r.et interception r.runoff
  (f2, r.s)

/-- A `met` record whose series all hold `x` on every day. -/
def met.uniform (x : α) : met α :=
  { rain := fun _ => x, press := fun _ => x, tair := fun _ => x, par := fun _ => x,
    co2 := fun _ => x, tam := fun _ => x, tpm := fun _ => x, sw_rad := fun _ => x,
    sw_rad_am := fun _ => x, sw_rad_pm := fun _ => x, vpd_avg := fun _ => x,
    vpd_am := fun _ => x, vpd_pm := fun _ => x, wind_am := fun _ => x,
    wind_pm := fun _ => x, wind := fun _ => x }

/-- The comparison `float_eq` read exactly: equal arguments, and nothing else, compare
equal. One admissible reading of the helper, used for concrete inputs. -/
def float_eq_exact (a b : α) : Bool :=
  decide (a = b)

/-- A `control` record of a daily run with the given stress flag and stress model. -/
def control.daily (water_stress sw_stress_model : Int) : control :=
  { sub_daily := 0, hrly_idx := 0, water_stress := water_stress,
    sw_stress_model := sw_stress_model, calc_sw_params := 0 }

/-- A `params` record whose numeric fields all hold `x`, on loam. -/
def params.uniform (x : α) : params α :=
  { fractup_soil := x, wcapac_topsoil := x, wcapac_root := x, intercep_frac := x,
    max_intercep_lai := x, albedo := x, leaf_width := x, g1 := x, dz0v_dh := x,
    z0h_z0m := x, displace_ratio := x, qs := x, ctheta_topsoil := x, ntheta_topsoil := x,
    ctheta_root := x, ntheta_root := x, topsoil_type := "loam", rootsoil_type := "loam",
    topsoil_depth := x, rooting_depth := x, theta_sat_topsoil := x, b_topsoil := x,
    psi_sat_topsoil := x, theta_sat_root := x, b_root := x, psi_sat_root := x }

/-- A `state` record whose fields all hold `x`. -/
def state.uniform (x : α) : state α :=
  { pawater_topsoil := x, pawater_root := x, wtfac_topsoil := x, wtfac_root := x,
    delta_sw_store := x, lai := x, canht := x, psi_sat_topsoil := x,
    theta_sat_topsoil := x, b_topsoil := x, psi_sat_root := x, theta_sat_root := x,
    b_root := x }

/-- A `state` record with storages and other fields `x` and the same Clapp-Hornberger
properties `psi_sat`, `theta_sat`, `b` in both layers. -/
def state.layered (x psi_sat theta_sat b : α) : state α :=
  { pawater_topsoil := x, pawater_root := x, wtfac_topsoil := x, wtfac_root := x,
    delta_sw_store := x, lai := x, canht := x, psi_sat_topsoil := psi_sat,
    theta_sat_topsoil := theta_sat, b_topsoil := b, psi_sat_root := psi_sat,
    theta_sat_root := theta_sat, b_root := b }

/-- A `fluxes` record whose fields all hold `x`. -/
def fluxes.uniform (x : α) : fluxes α :=
  { gpp_gCm2 := x, gpp_am := x, gpp_pm := x, omega := x, gs_mol_m2_sec := x,
    ga_mol_m2_sec := x, transpiration := x, soil_evap := x, et := x, interception := x,
    runoff := x }

/-- A `consts` record whose fields all hold `x`. -/
def consts.uniform (x : α) : consts α :=
  { DEG_TO_KELVIN := x, MM_TO_M := x, RGAS := x, GRAMS_C_TO_MOL_C := x, MOL_TO_UMOL := x,
    KPA_2_PA := x, PAR_2_SW := x, MOLE_WATER_2_G_WATER := x, G_TO_KG := x,
    SEC_2_HLFHR := x, H2OLV0 := x, H2OMW := x, CP := x, MASS_AIR := x }

/-- A stand-in math library on the rationals, for runs that never reach it. -/
def Libm.idle : Libm ℚ :=
  { exp := fun x => x, log := fun x => x, sqrt := fun x => x, pow := fun x _ => x }

/-- The eleven texture classes of the glossary. -/
def texture_classes : List String :=
  ["sand", "loamy_sand", "sandy_loam", "loam", "silty_loam", "sandy_clay_loam", "clay_loam",
    "silty_clay_loam", "sandy_clay", "silty_clay", "clay"]

/-- A `control` record of a daily run that derives the soil parameters from the texture
classes. -/
def control.deriving_soil : control :=
  { sub_daily := 0, hrly_idx := 0, water_stress := 1, sw_stress_model := 1,
    calc_sw_params := 1 }

/-- A `params` record whose numeric fields all hold `x`, with both layers of texture class
`soil`. -/
def params.on_soil (x : α) (soil : String) : params α :=
  { fractup_soil := x, wcapac_topsoil := x, wcapac_root := x, intercep_frac := x,
    max_intercep_lai := x, albedo := x, leaf_width := x, g1 := x, dz0v_dh := x,
    z0h_z0m := x, displace_ratio := x, qs := x, ctheta_topsoil := x, ntheta_topsoil := x,
    ctheta_root := x, ntheta_root := x, topsoil_type := soil, rootsoil_type := soil,
    topsoil_depth := x, rooting_depth := x, theta_sat_topsoil := x, b_topsoil := x,
    psi_sat_topsoil := x, theta_sat_root := x, b_root := x, psi_sat_root := x }

/-- A calm, cold, dull and dry day repeated on every index: no rain, air at 0 degrees
morning and afternoon, no wind, 100 W m-2 of shortwave radiation, a vapour pressure
deficit of 1 kPa, pressure 100 kPa and 400 umol mol-1 of CO2. -/
def met.calm_day : met α :=
  { rain := fun _ => 0, press := fun _ => 100, tair := fun _ => 0, par := fun _ => 200,
    co2 := fun _ => 400, tam := fun _ => 0, tpm := fun _ => 0, sw_rad := fun _ => 100,
    sw_rad_am := fun _ => 50, sw_rad_pm := fun _ => 50, vpd_avg := fun _ => 1,
    vpd_am := fun _ => 1, vpd_pm := fun _ => 1, wind_am := fun _ => 0,
    wind_pm := fun _ => 0, wind := fun _ => 0 }

/-- A forest stand on loam: capacities of 100 and 300 mm, albedo 0.2, `g1 = 4`. -/
def params.stand : params α :=
  { fractup_soil := 0.5, wcapac_topsoil := 100, wcapac_root := 300, intercep_frac := 0.15,
    max_intercep_lai := 3, albedo := 0.2, leaf_width := 0.01, g1 := 4, dz0v_dh := 0.1,
    z0h_z0m := 1, displace_ratio := 0.75, qs := 1, ctheta_topsoil := 0.55,
    ntheta_topsoil := 6, ctheta_root := 0.55, ntheta_root := 6, topsoil_type := "loam",
    rootsoil_type := "loam", topsoil_depth := 450, rooting_depth := 2000,
    theta_sat_topsoil := 0.4, b_topsoil := 6, psi_sat_topsoil := -0.001,
    theta_sat_root := 0.4, b_root := 6, psi_sat_root := -0.001 }

/-- The state of the stand: pools half full, no water stress, `LAI = 3`, 20 m tall. -/
def state.stand : state α :=
  { pawater_topsoil := 50, pawater_root := 150, wtfac_topsoil := 1, wtfac_root := 1,
    delta_sw_store := 0, lai := 3, canht := 20, psi_sat_topsoil := -0.001,
    theta_sat_topsoil := 0.4, b_topsoil := 6, psi_sat_root := -0.001,
    theta_sat_root := 0.4, b_root := 6 }

/-- The flux record of the stand before the step: 5 g C m-2 assimilated in each half of
the day, every other field zero. -/
def fluxes.stand : fluxes α :=
  { gpp_gCm2 := 10, gpp_am := 5, gpp_pm := 5, omega := 0, gs_mol_m2_sec := 0,
    ga_mol_m2_sec := 0, transpiration := 0, soil_evap := 0, et := 0, interception := 0,
    runoff := 0 }

/-- A `consts` record whose fields all hold 1, but for the latent heat `H2OLV0`. -/
def consts.with_latent_heat (h : α) : consts α :=
  { DEG_TO_KELVIN := 1, MM_TO_M := 1, RGAS := 1, GRAMS_C_TO_MOL_C := 1, MOL_TO_UMOL := 1,
    KPA_2_PA := 1, PAR_2_SW := 1, MOLE_WATER_2_G_WATER := 1, G_TO_KG := 1,
    SEC_2_HLFHR := 1, H2OLV0 := h, H2OMW := 1, CP := 1, MASS_AIR := 1 }

/-- A `params` record of the stand with the given interception fraction and saturating
`LAI`. -/
def params.canopy (intercep_frac max_intercep_lai : α) : params α :=
  { fractup_soil := 0.5, wcapac_topsoil := 100, wcapac_root := 300,
    intercep_frac := intercep_frac, max_intercep_lai := max_intercep_lai, albedo := 0.2,
    leaf_width := 0.01, g1 := 4, dz0v_dh := 0.1, z0h_z0m := 1, displace_ratio := 0.75,
    qs := 1, ctheta_topsoil := 0.55, ntheta_topsoil := 6, ctheta_root := 0.55,
    ntheta_root := 6, topsoil_type := "loam", rootsoil_type := "loam",
    topsoil_depth := 450, rooting_depth := 2000, theta_sat_topsoil := 0.4, b_topsoil := 6,
    psi_sat_topsoil := -0.001, theta_sat_root := 0.4, b_root := 6,
    psi_sat_root := -0.001 }

/-- A quotient of the C code with its divisor checked: it has no value when the divisor is
0, where the C division yields an infinity or a NaN and not a number. -/
def quotient (a b : α) : Option α :=
  if b = 0 then none else some (a / b)

/-- `calc_pyschrometric_constant` with its quotient checked. -/
def calc_pyschrometric_constant_checked (lambdax press : α) : Option α :=
  let cp : α := 1.013E-3
  let epsilon : α := 0.6222
  quotient (cp * press) (epsilon * lambdax)

/-- `calc_slope_of_saturation_vapour_pressure_curve` with its quotients checked. At
`tavg = -237.3` the local `t` is 0, both divisors are 0 and the C code computes
`0 / 0 = NaN`; here the slope then has no value. -/
def calc_slope_of_saturation_vapour_pressure_curve_checked (m : Libm α) (tavg : α) :
    Option α := do
  let t := tavg + 237.3
  let x ← quotient (17.27 * tavg) t
  let arg1 := 4098.0 * (0.6108 * m.exp x)
  let arg2 := t * t
  quotient arg1 arg2

/-- `penman_monteith` with every quotient checked: the values behind `omega` and `et` when
all of them are numbers, and no value when a divisor that the taken branch uses is 0. In
the branch `gs ≤ 0` the slope and the psychrometric constant are computed but not used, so
the result is `omega = 0`, `et = 0` whatever they are. -/
def penman_monteith_checked (m : Libm α) (vpd gs net_rad tavg press ga : α) :
    Option (pm_result α) :=
  let cp : α := 1.013E-3
  let lambdax := calc_latent_heat_of_vapourisation tavg
  let rho := calc_density_of_air tavg
  if gs > 0.0 then do
    let gamma ← calc_pyschrometric_constant_checked lambdax press
    let slope ← calc_slope_of_saturation_vapour_pressure_curve_checked m tavg
    let e ← quotient slope gamma
    let r ← quotient ga gs
    let omega ← quotient (e + 1.0) (e + 1.0 + r)
    let arg1 := (slope * net_rad) + (rho * cp * vpd * ga)
    let arg2 := slope + gamma * (1.0 + r)
    let q ← quotient arg1 arg2
    let et ← quotient q lambdax
    pure { omega := omega, et := et }
  else
    some { omega := 0.0, et := 0.0 }

/-! ## The soil water bucket -/

section bucket

variable (m : Libm α) (float_eq : α → α → Bool) (c : control) (p : params α) (s : state α)
variable (rain interception transpiration soil_evap et : α)

theorem stress_keeps_pawater_root :
    (calculate_soil_water_fac m float_eq c p s).pawater_root = s.pawater_root := by
  unfold calculate_soil_water_fac
  split_ifs <;> rfl

theorem stress_keeps_pawater_topsoil :
    (calculate_soil_water_fac m float_eq c p s).pawater_topsoil = s.pawater_topsoil := by
  unfold calculate_soil_water_fac
  split_ifs <;> rfl

theorem stress_keeps_delta_sw_store :
    (calculate_soil_water_fac m float_eq c p s).delta_sw_store = s.delta_sw_store := by
  unfold calculate_soil_water_fac
  split_ifs <;> rfl

theorem zero_lit : (0.0 : α) = 0 := by norm_num

theorem one_lit : (1.0 : α) = 1 := by norm_num

theorem root_after_runoff_eq :
    root_after_runoff p s rain interception transpiration soil_evap =
      min (root_before_runoff s rain interception transpiration soil_evap) p.wcapac_root := by
  unfold root_after_runoff
  simp only []
  split_ifs with h
  · rw [min_eq_right (le_of_lt h)]; ring
  · rw [min_eq_left (not_lt.mp h)]

theorem clamp_of_le (x w : α) (hx : x ≤ w) :
    (if x < 0 then 0 else if x > w then w else x) = max 0 x := by
  split_ifs with h1 h2
  · exact (max_eq_left (le_of_lt h1)).symm
  · exact absurd hx (not_le.mpr h2)
  · exact (max_eq_right (not_lt.mp h1)).symm

theorem clamp_bounds (x w : α) (hw : 0 ≤ w) :
    0 ≤ (if x < 0 then 0 else if x > w then w else x) ∧
      (if x < 0 then 0 else if x > w then w else x) ≤ w := by
  split_ifs with h1 h2
  · exact ⟨le_refl _, hw⟩
  · exact ⟨hw, le_refl _⟩
  · exact ⟨not_lt.mp h1, not_lt.mp h2⟩

theorem root_after_runoff_le :
    root_after_runoff p s rain interception transpiration soil_evap ≤ p.wcapac_root := by
  rw [root_after_runoff_eq]; exact min_le_right _ _

theorem update_pawater_root :
    (update_water_storage m float_eq c p s rain interception transpiration soil_evap
        et).s.pawater_root =
      max 0 (root_after_runoff p s rain interception transpiration soil_evap) := by
  rw [← clamp_of_le _ _ (root_after_runoff_le p s rain interception transpiration soil_evap)]
  unfold update_water_storage
  simp only [zero_lit]
  by_cases h : c.water_stress = 0
  · simp only [h, ne_eq, not_true_eq_false, if_false]
  · simp only [h, ne_eq, not_false_eq_true, if_true, stress_keeps_pawater_root]

theorem update_delta_sw_store :
    (update_water_storage m float_eq c p s rain interception transpiration soil_evap
        et).s.delta_sw_store =
      max 0 (root_after_runoff p s rain interception transpiration soil_evap) -
        s.pawater_root := by
  rw [← clamp_of_le _ _ (root_after_runoff_le p s rain interception transpiration soil_evap)]
  unfold update_water_storage
  simp only [zero_lit]
  by_cases h : c.water_stress = 0
  · simp only [h, ne_eq, not_true_eq_false, if_false]
  · simp only [h, ne_eq, not_false_eq_true, if_true, stress_keeps_delta_sw_store]

theorem update_pawater_topsoil :
    (update_water_storage m float_eq c p s rain interception transpiration soil_evap
        et).s.pawater_topsoil =
      (if s.pawater_topsoil + ((rain - interception) -
            (transpiration * (p.fractup_soil * s.wtfac_topsoil)) - soil_evap) < 0 then 0
        else if s.pawater_topsoil + ((rain - interception) -
            (transpiration * (p.fractup_soil * s.wtfac_topsoil)) - soil_evap) >
              p.wcapac_topsoil then p.wcapac_topsoil
        else s.pawater_topsoil + ((rain - interception) -
            (transpiration * (p.fractup_soil * s.wtfac_topsoil)) - soil_evap)) := by
  unfold update_water_storage
  simp only [zero_lit]
  by_cases h : c.water_stress = 0
  · simp only [h, ne_eq, not_true_eq_false, if_false]
  · simp only [h, ne_eq, not_false_eq_true, if_true, stress_keeps_pawater_topsoil]

theorem update_runoff :
    (update_water_storage m float_eq c p s rain interception transpiration soil_evap
        et).runoff =
      (if root_before_runoff s rain interception transpiration soil_evap > p.wcapac_root
        then root_before_runoff s rain interception transpiration soil_evap - p.wcapac_root
        else 0) := by
  unfold update_water_storage
  simp only [zero_lit]

theorem update_fluxes :
    (update_water_storage m float_eq c p s rain interception transpiration soil_evap
        et).transpiration =
      (if root_after_runoff p s rain interception transpiration soil_evap < 0 then 0
        else transpiration) ∧
    (update_water_storage m float_eq c p s rain interception transpiration soil_evap
        et).soil_evap =
      (if root_after_runoff p s rain interception transpiration soil_evap < 0 then 0
        else soil_evap) ∧
    (update_water_storage m float_eq c p s rain interception transpiration soil_evap
        et).et =
      (if root_after_runoff p s rain interception transpiration soil_evap < 0
        then interception else et) := by
  unfold update_water_storage
  simp only [zero_lit]
  exact ⟨trivial, trivial, trivial⟩

/-- C1. Root-zone mass balance: when the shutdown branch does not fire (the root pool after
runoff removal is not negative), the root storage changes by
`rain - interception - transpiration - soil_evap - runoff`, the recorded `delta_sw_store`
is that same quantity, and transpiration and soil evaporation are returned as supplied. -/
theorem root_mass_balance
    (h : 0 ≤ root_after_runoff p s rain interception transpiration soil_evap) :
    (update_water_storage m float_eq c p s rain interception transpiration soil_evap
          et).s.pawater_root - s.pawater_root =
        rain - interception -
          (update_water_storage m float_eq c p s rain interception transpiration soil_evap
            et).transpiration -
          (update_water_storage m float_eq c p s rain interception transpiration soil_evap
            et).soil_evap -
          (update_water_storage m float_eq c p s rain interception transpiration soil_evap
            et).runoff ∧
      (update_water_storage m float_eq c p s rain interception transpiration soil_evap
          et).s.delta_sw_store =
        rain - interception -
          (update_water_storage m float_eq c p s rain interception transpiration soil_evap
            et).transpiration -
          (update_water_storage m float_eq c p s rain interception transpiration soil_evap
            et).soil_evap -
          (update_water_storage m float_eq c p s rain interception transpiration soil_evap
            et).runoff ∧
      (update_water_storage m float_eq c p s rain interception transpiration soil_evap
          et).transpiration = transpiration ∧
      (update_water_storage m float_eq c p s rain interception transpiration soil_evap
          et).soil_evap = soil_evap := by
  have hf := update_fluxes m float_eq c p s rain interception transpiration soil_evap et
  have hT := hf.1
  have hE := hf.2.1
  rw [if_neg (not_lt.mpr h)] at hT hE
  have hR : (update_water_storage m float_eq c p s rain interception transpiration
      soil_evap et).s.pawater_root - s.pawater_root =
      rain - interception - transpiration - soil_evap -
        (update_water_storage m float_eq c p s rain interception transpiration soil_evap
          et).runoff := by
    rw [update_pawater_root, update_runoff, max_eq_right h, root_after_runoff_eq]
    unfold root_before_runoff
    split_ifs with h1
    · rw [min_eq_right (le_of_lt h1)]; ring
    · rw [min_eq_left (not_lt.mp h1)]; ring
  refine ⟨by rw [hT, hE]; exact hR, ?_, hT, hE⟩
  rw [hT, hE, ← hR, update_delta_sw_store, update_pawater_root]

/-- C2. Storage bounds: with non-negative capacities, after `update_water_storage` both
storages lie between zero and their capacity, whatever the prior state and the fluxes. -/
theorem storage_bounds (ht : 0 ≤ p.wcapac_topsoil) (hr : 0 ≤ p.wcapac_root) :
    (0 ≤ (update_water_storage m float_eq c p s rain interception transpiration soil_evap
          et).s.pawater_topsoil ∧
      (update_water_storage m float_eq c p s rain interception transpiration soil_evap
          et).s.pawater_topsoil ≤ p.wcapac_topsoil) ∧
    (0 ≤ (update_water_storage m float_eq c p s rain interception transpiration soil_evap
          et).s.pawater_root ∧
      (update_water_storage m float_eq c p s rain interception transpiration soil_evap
          et).s.pawater_root ≤ p.wcapac_root) := by
  refine ⟨?_, ?_, ?_⟩
  · rw [update_pawater_topsoil]
    exact clamp_bounds _ _ ht
  · rw [update_pawater_root]
    exact le_max_left _ _
  · rw [update_pawater_root]
    exact max_le hr (root_after_runoff_le p s rain interception transpiration soil_evap)

/-- C3. Runoff is never negative: it is zero when the root pool before runoff removal does
not exceed `wcapac_root`, and otherwise it is exactly the excess of that pool over
`wcapac_root`. -/
theorem runoff_nonneg_excess :
    0 ≤ (update_water_storage m float_eq c p s rain interception transpiration soil_evap
        et).runoff ∧
      (root_before_runoff s rain interception transpiration soil_evap ≤ p.wcapac_root →
        (update_water_storage m float_eq c p s rain interception transpiration soil_evap
          et).runoff = 0) ∧
      (p.wcapac_root < root_before_runoff s rain interception transpiration soil_evap →
        (update_water_storage m float_eq c p s rain interception transpiration soil_evap
          et).runoff =
          root_before_runoff s rain interception transpiration soil_evap -
            p.wcapac_root) := by
  have hr := update_runoff m float_eq c p s rain interception transpiration soil_evap et
  refine ⟨?_, ?_, ?_⟩
  · rw [hr]
    split_ifs with h1
    · exact le_of_lt (sub_pos.mpr h1)
    · exact le_refl _
  · intro h1
    rw [hr, if_neg (not_lt.mpr h1)]
  · intro h1
    rw [hr, if_pos h1]

/-- C4. Water-limited shutdown: when the fluxes would drive the root storage negative, the
step returns zero transpiration, zero soil evaporation, `et = interception`, and leaves
the root storage at zero. -/
theorem water_limited_shutdown
    (h : s.pawater_root + rain - interception - transpiration - soil_evap < 0) :
    (update_water_storage m float_eq c p s rain interception transpiration soil_evap
        et).transpiration = 0 ∧
      (update_water_storage m float_eq c p s rain interception transpiration soil_evap
        et).soil_evap = 0 ∧
      (update_water_storage m float_eq c p s rain interception transpiration soil_evap
        et).et = interception ∧
      (update_water_storage m float_eq c p s rain interception transpiration soil_evap
        et).s.pawater_root = 0 := by
  have hneg : root_after_runoff p s rain interception transpiration soil_evap < 0 := by
    rw [root_after_runoff_eq]
    refine lt_of_le_of_lt (min_le_left _ _) ?_
    unfold root_before_runoff
    linarith
  have hf := update_fluxes m float_eq c p s rain interception transpiration soil_evap et
  refine ⟨?_, ?_, ?_, ?_⟩
  · rw [hf.1, if_pos hneg]
  · rw [hf.2.1, if_pos hneg]
  · rw [hf.2.2, if_pos hneg]
  · rw [update_pawater_root]
    exact max_eq_left (le_of_lt hneg)

end bucket

/-- Witness for `root_mass_balance`: root storage 1 with capacity 5, rain 3, interception
1/2, transpiration 1, soil evaporation 1/2, on the rationals. -/
theorem root_mass_balance_witness :
    (0 : ℚ) ≤ root_after_runoff (params.uniform 5) (state.uniform 1) 3 (1 / 2) 1 (1 / 2) ∧
    ((update_water_storage Libm.idle float_eq_exact (control.daily 0 0) (params.uniform 5)
          (state.uniform (1 : ℚ)) 3 (1 / 2) 1 (1 / 2) 2).s.pawater_root -
        (state.uniform (1 : ℚ)).pawater_root =
      3 - 1 / 2 -
        (update_water_storage Libm.idle float_eq_exact (control.daily 0 0)
          (params.uniform 5) (state.uniform (1 : ℚ)) 3 (1 / 2) 1 (1 / 2) 2).transpiration -
        (update_water_storage Libm.idle float_eq_exact (control.daily 0 0)
          (params.uniform 5) (state.uniform (1 : ℚ)) 3 (1 / 2) 1 (1 / 2) 2).soil_evap -
        (update_water_storage Libm.idle float_eq_exact (control.daily 0 0)
          (params.uniform 5) (state.uniform (1 : ℚ)) 3 (1 / 2) 1 (1 / 2) 2).runoff) :=
  have hyp : (0 : ℚ) ≤
      root_after_runoff (params.uniform 5) (state.uniform 1) 3 (1 / 2) 1 (1 / 2) := by
    norm_num [root_after_runoff, root_before_runoff, params.uniform, state.uniform]
  ⟨hyp, (root_mass_balance Libm.idle float_eq_exact (control.daily 0 0) (params.uniform 5)
    (state.uniform (1 : ℚ)) 3 (1 / 2) 1 (1 / 2) 2 hyp).1⟩

/-- Witness for `storage_bounds`: capacities 5, a wet day that overfills both pools. -/
theorem storage_bounds_witness :
    (0 : ℚ) ≤ (params.uniform (5 : ℚ)).wcapac_topsoil ∧
    (update_water_storage Libm.idle float_eq_exact (control.daily 0 0) (params.uniform 5)
        (state.uniform (1 : ℚ)) 30 0 0 0 0).s.pawater_root ≤
      (params.uniform (5 : ℚ)).wcapac_root :=
  have h5 : (0 : ℚ) ≤ (params.uniform (5 : ℚ)).wcapac_topsoil := by
    norm_num [params.uniform]
  have h5r : (0 : ℚ) ≤ (params.uniform (5 : ℚ)).wcapac_root := by
    norm_num [params.uniform]
  ⟨h5, (storage_bounds Libm.idle float_eq_exact (control.daily 0 0) (params.uniform 5)
    (state.uniform (1 : ℚ)) 30 0 0 0 0 h5 h5r).2.2⟩

/-- Witness for `water_limited_shutdown`: root storage 1, no rain, transpiration 3. -/
theorem water_limited_shutdown_witness :
    (state.uniform (1 : ℚ)).pawater_root + 0 - 0 - 3 - 0 < 0 ∧
    (update_water_storage Libm.idle float_eq_exact (control.daily 0 0) (params.uniform 5)
        (state.uniform (1 : ℚ)) 0 0 3 0 3).s.pawater_root = 0 :=
  have hyp : (state.uniform (1 : ℚ)).pawater_root + 0 - 0 - 3 - 0 < 0 := by
    norm_num [state.uniform]
  ⟨hyp, (water_limited_shutdown Libm.idle float_eq_exact (control.daily 0 0)
    (params.uniform 5) (state.uniform (1 : ℚ)) 0 0 3 0 3 hyp).2.2.2⟩

/-! ## Penman-Monteith -/

/-- C5. Penman-Monteith degeneracy: with `gs = 0`, and likewise with any `gs ≤ 0`,
`penman_monteith` returns `et = 0` and `omega = 0`, whatever the other arguments. -/
theorem penman_monteith_degenerate (m : Libm α) (vpd gs net_rad tavg press ga : α)
    (hgs : gs ≤ 0) :
    (penman_monteith m vpd gs net_rad tavg press ga).et = 0 ∧
      (penman_monteith m vpd gs net_rad tavg press ga).omega = 0 := by
  unfold penman_monteith
  simp only [zero_lit]
  rw [if_neg (not_lt.mpr hgs)]
  exact ⟨rfl, rfl⟩

/-- Witness for `penman_monteith_degenerate`: closed stomata, `gs = 0`, on the rationals. -/
theorem penman_monteith_degenerate_witness :
    (0 : ℚ) ≤ 0 ∧ (penman_monteith Libm.idle (1 : ℚ) 0 12 20 101 (1 / 10)).et = 0 ∧
      (penman_monteith Libm.idle (1 : ℚ) 0 12 20 101 (1 / 10)).omega = 0 :=
  ⟨le_refl 0, penman_monteith_degenerate Libm.idle (1 : ℚ) 0 12 20 101 (1 / 10) (le_refl 0)⟩

theorem stomatal_conductance_half (k : consts α) (m : Libm α)
    (g1 wtfac vpd ca daylen gpp : α) (hd : daylen ≠ 0) :
    calc_stomatal_conductance k m g1 wtfac vpd ca (daylen / 2.0) (gpp / 2) =
      calc_stomatal_conductance k m g1 wtfac vpd ca daylen gpp := by
  unfold calc_stomatal_conductance
  have h2 : (2.0 : α) = 2 := by norm_num
  have key : gpp / 2 * k.GRAMS_C_TO_MOL_C * k.MOL_TO_UMOL *
      (1.0 / (60.0 * 60.0 * (daylen / 2.0))) =
      gpp * k.GRAMS_C_TO_MOL_C * k.MOL_TO_UMOL * (1.0 / (60.0 * 60.0 * daylen)) := by
    rw [h2]
    field_simp
    ring
  simp only [key]

/-- C6. AM/PM consistency: with `daylen > 0`, two calls of
`calc_transpiration_penmon_am_pm` on the same inputs, each with half the daily
assimilation `gpp_gCm2 / 2`, return transpiration values whose sum is the `transpiration`
that one call of `calc_transpiration_penmon` writes for the same inputs and the daily
assimilation `gpp_gCm2`. -/
theorem am_pm_consistency (k : consts α) (m : Libm α) (f : fluxes α) (p : params α)
    (s : state α) (net_rad wind ca daylen press vpd tair : α) (hd : 0 < daylen) :
    (calc_transpiration_penmon_am_pm k m p s net_rad wind ca daylen press vpd tair
        (f.gpp_gCm2 / 2)).trans +
      (calc_transpiration_penmon_am_pm k m p s net_rad wind ca daylen press vpd tair
        (f.gpp_gCm2 / 2)).trans =
    (calc_transpiration_penmon k m f p s vpd net_rad tair wind ca daylen
        press).transpiration := by
  unfold calc_transpiration_penmon_am_pm calc_transpiration_penmon
  simp only [stomatal_conductance_half k m _ _ _ _ _ _ (ne_of_gt hd)]
  have h2 : (2.0 : α) = 2 := by norm_num
  rw [h2]
  ring

/-- Witness for `am_pm_consistency`: a twelve hour day with daily assimilation 6, on the
rationals. -/
theorem am_pm_consistency_witness :
    (0 : ℚ) < 12 ∧
    (calc_transpiration_penmon_am_pm (consts.uniform 1) Libm.idle (params.uniform 2)
        (state.uniform 1) 10 2 400 12 101 1 20 ((fluxes.uniform (6 : ℚ)).gpp_gCm2 / 2)).trans +
      (calc_transpiration_penmon_am_pm (consts.uniform 1) Libm.idle (params.uniform 2)
        (state.uniform 1) 10 2 400 12 101 1 20 ((fluxes.uniform (6 : ℚ)).gpp_gCm2 / 2)).trans =
    (calc_transpiration_penmon (consts.uniform 1) Libm.idle (fluxes.uniform (6 : ℚ))
        (params.uniform 2) (state.uniform 1) 1 10 20 2 400 12 101).transpiration :=
  ⟨by norm_num, am_pm_consistency (consts.uniform 1) Libm.idle (fluxes.uniform (6 : ℚ))
    (params.uniform 2) (state.uniform 1) 10 2 400 12 101 1 20 (by norm_num)⟩

/-! ## Soil moisture stress models -/

theorem stress_model_0 (m : Libm α) (float_eq : α → α → Bool) (c : control) (p : params α)
    (s : state α) (hm : c.sw_stress_model = 0) :
    (calculate_soil_water_fac m float_eq c p s).wtfac_topsoil =
        m.pow (s.pawater_topsoil / p.wcapac_topsoil) p.qs ∧
      (calculate_soil_water_fac m float_eq c p s).wtfac_root =
        m.pow (s.pawater_root / p.wcapac_root) p.qs := by
  unfold calculate_soil_water_fac
  simp only [hm, if_true]
  exact ⟨trivial, trivial⟩

theorem stress_model_1 (m : Libm α) (float_eq : α → α → Bool) (c : control) (p : params α)
    (s : state α) (hm : c.sw_stress_model = 1) :
    (calculate_soil_water_fac m float_eq c p s).wtfac_topsoil =
        calc_sw_modifier m (s.pawater_topsoil / p.wcapac_topsoil) p.ctheta_topsoil
          p.ntheta_topsoil ∧
      (calculate_soil_water_fac m float_eq c p s).wtfac_root =
        calc_sw_modifier m (s.pawater_root / p.wcapac_root) p.ctheta_root p.ntheta_root := by
  unfold calculate_soil_water_fac
  simp only [hm, one_ne_zero, if_true, if_false]
  exact ⟨trivial, trivial⟩

theorem stress_model_2 (m : Libm α) (float_eq : α → α → Bool) (c : control) (p : params α)
    (s : state α) (hm : c.sw_stress_model = 2) :
    (calculate_soil_water_fac m float_eq c p s).wtfac_topsoil =
        m.exp (0.66 * psi_swp m float_eq (s.pawater_topsoil / p.wcapac_topsoil)
          s.psi_sat_topsoil s.theta_sat_topsoil s.b_topsoil) ∧
      (calculate_soil_water_fac m float_eq c p s).wtfac_root =
        m.exp (0.66 * psi_swp m float_eq (s.pawater_root / p.wcapac_root) s.psi_sat_root
          s.theta_sat_root s.b_root) := by
  unfold calculate_soil_water_fac
  have h20 : ¬ ((2 : Int) = 0) := by decide
  have h21 : ¬ ((2 : Int) = 1) := by decide
  simp only [hm, h20, h21, if_true, if_false]
  exact ⟨trivial, trivial⟩

theorem pow_real_unit (x q : ℝ) (h0 : 0 ≤ x) (h1 : x ≤ 1) (hq : 0 < q) :
    0 ≤ Libm.real.pow x q ∧ Libm.real.pow x q ≤ 1 ∧ (0 < Libm.real.pow x q ↔ 0 < x) := by
  show 0 ≤ x ^ q ∧ x ^ q ≤ 1 ∧ (0 < x ^ q ↔ 0 < x)
  refine ⟨Real.rpow_nonneg h0 q, Real.rpow_le_one h0 h1 (le_of_lt hq), ?_, ?_⟩
  · intro hpos
    rcases eq_or_lt_of_le h0 with hx | hx
    · rw [← hx, Real.zero_rpow (ne_of_gt hq)] at hpos
      exact absurd hpos (lt_irrefl 0)
    · exact hx
  · intro hx
    exact Real.rpow_pos_of_pos hx q

theorem sw_modifier_real (theta c_theta n_theta : ℝ) (h1 : theta ≤ 1) (hc : 0 < c_theta) :
    calc_sw_modifier Libm.real theta c_theta n_theta =
        1 / (1 + ((1 - theta) / c_theta) ^ n_theta) ∧
      0 < calc_sw_modifier Libm.real theta c_theta n_theta ∧
      calc_sw_modifier Libm.real theta c_theta n_theta ≤ 1 := by
  have hb : 0 ≤ (1 - theta) / c_theta := div_nonneg (by linarith) (le_of_lt hc)
  have hp : 0 ≤ ((1 - theta) / c_theta) ^ n_theta := Real.rpow_nonneg hb n_theta
  have hdef : calc_sw_modifier Libm.real theta c_theta n_theta =
      1 / (1 + ((1 - theta) / c_theta) ^ n_theta) := by
    unfold calc_sw_modifier
    simp only [one_lit]
    rfl
  refine ⟨hdef, ?_, ?_⟩
  · rw [hdef]
    exact div_pos one_pos (by linarith)
  · rw [hdef, div_le_one (by linarith)]
    linarith

theorem psi_swp_real_nonpos (float_eq : ℝ → ℝ → Bool) (smc psi_sat theta_sat b : ℝ)
    (h0 : 0 ≤ smc) (hpsi : psi_sat < 0) (hsat : 0 < theta_sat) :
    psi_swp Libm.real float_eq smc psi_sat theta_sat b ≤ 0 := by
  unfold psi_swp
  split_ifs with h
  · norm_num
  · show psi_sat * (smc / theta_sat) ^ b ≤ 0
    exact mul_nonpos_of_nonpos_of_nonneg (le_of_lt hpsi)
      (Real.rpow_nonneg (div_nonneg h0 (le_of_lt hsat)) b)

theorem exp_real_unit (x : ℝ) (hx : x ≤ 0) :
    0 < Libm.real.exp (0.66 * x) ∧ Libm.real.exp (0.66 * x) ≤ 1 := by
  show 0 < Real.exp (0.66 * x) ∧ Real.exp (0.66 * x) ≤ 1
  refine ⟨Real.exp_pos _, ?_⟩
  rw [Real.exp_le_one_iff]
  exact mul_nonpos_of_nonneg_of_nonpos (by norm_num) hx

/-- C7, as stated, fails: under stress model 0 with `qs = 1 > 0`, an empty topsoil
(`θ = 0 / 1 = 0`, inside `[0,1]`) gets the stress factor `pow(0, 1) = 0`, which is not
strictly positive. -/
theorem stress_model_0_zero_at_empty :
    (0 : ℝ) < (params.uniform (1 : ℝ)).qs ∧
    (state.uniform (0 : ℝ)).pawater_topsoil / (params.uniform (1 : ℝ)).wcapac_topsoil = 0 ∧
    ¬ (0 < (calculate_soil_water_fac Libm.real float_eq_exact (control.daily 1 0)
        (params.uniform (1 : ℝ)) (state.uniform (0 : ℝ))).wtfac_topsoil) := by
  refine ⟨by norm_num [params.uniform], by norm_num [params.uniform, state.uniform], ?_⟩
  rw [(stress_model_0 Libm.real float_eq_exact (control.daily 1 0) (params.uniform (1 : ℝ))
    (state.uniform (0 : ℝ)) rfl).1]
  show ¬ (0 < ((0 : ℝ) / 1) ^ (1 : ℝ))
  norm_num

/-- C7, amended. Stress model 0 bounds: with `sw_stress_model = 0` and `qs > 0`, for
storage fractions `θ = pawater / wcapac` in `[0,1]` (both layers),
`calculate_soil_water_fac` sets each stress factor to `θ ^ qs`, a value in `[0,1]` that is
strictly positive exactly when `θ > 0`; at `θ = 0` it is 0. -/
theorem stress_model_0_bounds (float_eq : ℝ → ℝ → Bool) (c : control) (p : params ℝ)
    (s : state ℝ) (hm : c.sw_stress_model = 0) (hq : 0 < p.qs)
    (ht0 : 0 ≤ s.pawater_topsoil / p.wcapac_topsoil)
    (ht1 : s.pawater_topsoil / p.wcapac_topsoil ≤ 1)
    (hr0 : 0 ≤ s.pawater_root / p.wcapac_root)
    (hr1 : s.pawater_root / p.wcapac_root ≤ 1) :
    ((calculate_soil_water_fac Libm.real float_eq c p s).wtfac_topsoil =
        (s.pawater_topsoil / p.wcapac_topsoil) ^ p.qs ∧
      0 ≤ (calculate_soil_water_fac Libm.real float_eq c p s).wtfac_topsoil ∧
      (calculate_soil_water_fac Libm.real float_eq c p s).wtfac_topsoil ≤ 1 ∧
      (0 < (calculate_soil_water_fac Libm.real float_eq c p s).wtfac_topsoil ↔
        0 < s.pawater_topsoil / p.wcapac_topsoil)) ∧
    ((calculate_soil_water_fac Libm.real float_eq c p s).wtfac_root =
        (s.pawater_root / p.wcapac_root) ^ p.qs ∧
      0 ≤ (calculate_soil_water_fac Libm.real float_eq c p s).wtfac_root ∧
      (calculate_soil_water_fac Libm.real float_eq c p s).wtfac_root ≤ 1 ∧
      (0 < (calculate_soil_water_fac Libm.real float_eq c p s).wtfac_root ↔
        0 < s.pawater_root / p.wcapac_root)) := by
  have h := stress_model_0 Libm.real float_eq c p s hm
  rw [h.1, h.2]
  exact ⟨⟨rfl, pow_real_unit _ _ ht0 ht1 hq⟩, ⟨rfl, pow_real_unit _ _ hr0 hr1 hq⟩⟩

/-- Witness for `stress_model_0_bounds`: both pools half full, `qs = 1`. -/
theorem stress_model_0_bounds_witness :
    (0 : ℝ) < (params.uniform (1 : ℝ)).qs ∧
    0 ≤ (calculate_soil_water_fac Libm.real float_eq_exact (control.daily 1 0)
        (params.uniform (1 : ℝ)) (state.uniform (1 / 2 : ℝ))).wtfac_topsoil ∧
    (calculate_soil_water_fac Libm.real float_eq_exact (control.daily 1 0)
        (params.uniform (1 : ℝ)) (state.uniform (1 / 2 : ℝ))).wtfac_topsoil ≤ 1 :=
  have hq : (0 : ℝ) < (params.uniform (1 : ℝ)).qs := by norm_num [params.uniform]
  have key := stress_model_0_bounds float_eq_exact (control.daily 1 0)
    (params.uniform (1 : ℝ)) (state.uniform (1 / 2 : ℝ)) rfl hq
    (by norm_num [params.uniform, state.uniform])
    (by norm_num [params.uniform, state.uniform])
    (by norm_num [params.uniform, state.uniform])
    (by norm_num [params.uniform, state.uniform])
  ⟨hq, key.1.2.1, key.1.2.2.1⟩

/-- C8. Stress model 1 bounds: for `θ` in `[0,1]`, `c_theta > 0` and `n_theta > 0`,
`calc_sw_modifier` is `1 / (1 + ((1 - θ) / c_theta) ^ n_theta)` and lies in `(0,1]`; so with
`sw_stress_model = 1` both stress factors set by `calculate_soil_water_fac` lie in
`(0,1]`. -/
theorem stress_model_1_bounds (float_eq : ℝ → ℝ → Bool) (c : control) (p : params ℝ)
    (s : state ℝ) (hm : c.sw_stress_model = 1)
    (_ht0 : 0 ≤ s.pawater_topsoil / p.wcapac_topsoil)
    (ht1 : s.pawater_topsoil / p.wcapac_topsoil ≤ 1)
    (_hr0 : 0 ≤ s.pawater_root / p.wcapac_root)
    (hr1 : s.pawater_root / p.wcapac_root ≤ 1)
    (hct : 0 < p.ctheta_topsoil) (_hnt : 0 < p.ntheta_topsoil)
    (hcr : 0 < p.ctheta_root) (_hnr : 0 < p.ntheta_root) :
    (∀ theta c_theta n_theta : ℝ, 0 ≤ theta → theta ≤ 1 → 0 < c_theta → 0 < n_theta →
      calc_sw_modifier Libm.real theta c_theta n_theta =
          1 / (1 + ((1 - theta) / c_theta) ^ n_theta) ∧
        0 < calc_sw_modifier Libm.real theta c_theta n_theta ∧
        calc_sw_modifier Libm.real theta c_theta n_theta ≤ 1) ∧
    (0 < (calculate_soil_water_fac Libm.real float_eq c p s).wtfac_topsoil ∧
      (calculate_soil_water_fac Libm.real float_eq c p s).wtfac_topsoil ≤ 1) ∧
    (0 < (calculate_soil_water_fac Libm.real float_eq c p s).wtfac_root ∧
      (calculate_soil_water_fac Libm.real float_eq c p s).wtfac_root ≤ 1) := by
  have h := stress_model_1 Libm.real float_eq c p s hm
  rw [h.1, h.2]
  refine ⟨?_, ?_, ?_⟩
  · intro theta c_theta n_theta _ h1 hc _
    exact sw_modifier_real theta c_theta n_theta h1 hc
  · exact (sw_modifier_real _ _ _ ht1 hct).2
  · exact (sw_modifier_real _ _ _ hr1 hcr).2

/-- Witness for `stress_model_1_bounds`: both pools half full, `c_theta = n_theta = 1`. -/
theorem stress_model_1_bounds_witness :
    (0 : ℝ) < (params.uniform (1 : ℝ)).ctheta_topsoil ∧
    0 < (calculate_soil_water_fac Libm.real float_eq_exact (control.daily 1 1)
        (params.uniform (1 : ℝ)) (state.uniform (1 / 2 : ℝ))).wtfac_topsoil ∧
    (calculate_soil_water_fac Libm.real float_eq_exact (control.daily 1 1)
        (params.uniform (1 : ℝ)) (state.uniform (1 / 2 : ℝ))).wtfac_topsoil ≤ 1 :=
  have hc : (0 : ℝ) < (params.uniform (1 : ℝ)).ctheta_topsoil := by
    norm_num [params.uniform]
  have key := stress_model_1_bounds float_eq_exact (control.daily 1 1)
    (params.uniform (1 : ℝ)) (state.uniform (1 / 2 : ℝ)) rfl
    (by norm_num [params.uniform, state.uniform])
    (by norm_num [params.uniform, state.uniform])
    (by norm_num [params.uniform, state.uniform])
    (by norm_num [params.uniform, state.uniform])
    hc (by norm_num [params.uniform]) (by norm_num [params.uniform])
    (by norm_num [params.uniform])
  ⟨hc, key.2.1⟩

/-- C9. Stress model 2 bounds: with `sw_stress_model = 2`, for storage fractions in `[0,1]`
and layers with `psi_sat < 0`, `theta_sat > 0` and `b > 0`, the matric potential computed
for each layer is at most 0 and the stress factor `exp(0.66 * ψ)` set by
`calculate_soil_water_fac` lies in `(0,1]`, whatever `float_eq` answers. -/
theorem stress_model_2_bounds (float_eq : ℝ → ℝ → Bool) (c : control) (p : params ℝ)
    (s : state ℝ) (hm : c.sw_stress_model = 2)
    (ht0 : 0 ≤ s.pawater_topsoil / p.wcapac_topsoil)
    (_ht1 : s.pawater_topsoil / p.wcapac_topsoil ≤ 1)
    (hr0 : 0 ≤ s.pawater_root / p.wcapac_root)
    (_hr1 : s.pawater_root / p.wcapac_root ≤ 1)
    (hpt : s.psi_sat_topsoil < 0) (hst : 0 < s.theta_sat_topsoil) (_hbt : 0 < s.b_topsoil)
    (hpr : s.psi_sat_root < 0) (hsr : 0 < s.theta_sat_root) (_hbr : 0 < s.b_root) :
    (psi_swp Libm.real float_eq (s.pawater_topsoil / p.wcapac_topsoil) s.psi_sat_topsoil
          s.theta_sat_topsoil s.b_topsoil ≤ 0 ∧
      (calculate_soil_water_fac Libm.real float_eq c p s).wtfac_topsoil =
        Real.exp (0.66 * psi_swp Libm.real float_eq (s.pawater_topsoil / p.wcapac_topsoil)
          s.psi_sat_topsoil s.theta_sat_topsoil s.b_topsoil) ∧
      0 < (calculate_soil_water_fac Libm.real float_eq c p s).wtfac_topsoil ∧
      (calculate_soil_water_fac Libm.real float_eq c p s).wtfac_topsoil ≤ 1) ∧
    (psi_swp Libm.real float_eq (s.pawater_root / p.wcapac_root) s.psi_sat_root
          s.theta_sat_root s.b_root ≤ 0 ∧
      (calculate_soil_water_fac Libm.real float_eq c p s).wtfac_root =
        Real.exp (0.66 * psi_swp Libm.real float_eq (s.pawater_root / p.wcapac_root)
          s.psi_sat_root s.theta_sat_root s.b_root) ∧
      0 < (calculate_soil_water_fac Libm.real float_eq c p s).wtfac_root ∧
      (calculate_soil_water_fac Libm.real float_eq c p s).wtfac_root ≤ 1) := by
  have h := stress_model_2 Libm.real float_eq c p s hm
  have hT := psi_swp_real_nonpos float_eq (s.pawater_topsoil / p.wcapac_topsoil)
    s.psi_sat_topsoil s.theta_sat_topsoil s.b_topsoil ht0 hpt hst
  have hR := psi_swp_real_nonpos float_eq (s.pawater_root / p.wcapac_root)
    s.psi_sat_root s.theta_sat_root s.b_root hr0 hpr hsr
  rw [h.1, h.2]
  exact ⟨⟨hT, rfl, exp_real_unit _ hT⟩, ⟨hR, rfl, exp_real_unit _ hR⟩⟩

/-- Witness for `stress_model_2_bounds`: both pools half full of capacity 1, with
`psi_sat = -1`, `theta_sat = 1`, `b = 1` in both layers. -/
theorem stress_model_2_bounds_witness :
    (state.layered (1 / 2 : ℝ) (-1) 1 1).psi_sat_topsoil < 0 ∧
    0 < (calculate_soil_water_fac Libm.real float_eq_exact (control.daily 1 2)
        (params.uniform (1 : ℝ)) (state.layered (1 / 2 : ℝ) (-1) 1 1)).wtfac_topsoil ∧
    (calculate_soil_water_fac Libm.real float_eq_exact (control.daily 1 2)
        (params.uniform (1 : ℝ)) (state.layered (1 / 2 : ℝ) (-1) 1 1)).wtfac_topsoil ≤ 1 :=
  have key := stress_model_2_bounds float_eq_exact (control.daily 1 2)
    (params.uniform (1 : ℝ)) (state.layered (1 / 2 : ℝ) (-1) 1 1) rfl
    (by norm_num [params.uniform, state.layered])
    (by norm_num [params.uniform, state.layered])
    (by norm_num [params.uniform, state.layered])
    (by norm_num [params.uniform, state.layered])
    (by norm_num [state.layered]) (by norm_num [state.layered])
    (by norm_num [state.layered]) (by norm_num [state.layered])
    (by norm_num [state.layered]) (by norm_num [state.layered])
  ⟨by norm_num [state.layered], key.1.2.2⟩

/-- C10. Stress model 2 at empty storage: with `sw_stress_model = 2` and a `float_eq` that
finds 0 equal to 0, a layer whose storage fraction is 0 gets the matric potential `-1.5`,
whatever `pow` would return, and `calculate_soil_water_fac` sets its stress factor to
exactly `exp(0.66 * -1.5)`, for every `psi_sat`, `theta_sat` and `b`. -/
theorem stress_model_2_at_empty (m : Libm α) (float_eq : α → α → Bool) (c : control)
    (p : params α) (s : state α) (hm : c.sw_stress_model = 2)
    (hfe : float_eq 0 0 = true) :
    (s.pawater_topsoil / p.wcapac_topsoil = 0 →
      psi_swp m float_eq (s.pawater_topsoil / p.wcapac_topsoil) s.psi_sat_topsoil
          s.theta_sat_topsoil s.b_topsoil = -1.5 ∧
        (calculate_soil_water_fac m float_eq c p s).wtfac_topsoil =
          m.exp (0.66 * -1.5)) ∧
    (s.pawater_root / p.wcapac_root = 0 →
      psi_swp m float_eq (s.pawater_root / p.wcapac_root) s.psi_sat_root
          s.theta_sat_root s.b_root = -1.5 ∧
        (calculate_soil_water_fac m float_eq c p s).wtfac_root = m.exp (0.66 * -1.5)) := by
  have h := stress_model_2 m float_eq c p s hm
  have hpsi : ∀ psi_sat theta_sat b : α, psi_swp m float_eq 0 psi_sat theta_sat b = -1.5 := by
    intro psi_sat theta_sat b
    unfold psi_swp
    rw [zero_lit, if_pos hfe]
  refine ⟨?_, ?_⟩
  · intro h0
    rw [h.1, h0, hpsi]
    exact ⟨rfl, rfl⟩
  · intro h0
    rw [h.2, h0, hpsi]
    exact ⟨rfl, rfl⟩

/-- Witness for `stress_model_2_at_empty`: an empty state with capacities 1, `float_eq` read
exactly, on the reals, where the stress factor is `Real.exp (0.66 * -1.5)`. -/
theorem stress_model_2_at_empty_witness :
    float_eq_exact (0 : ℝ) 0 = true ∧
    (calculate_soil_water_fac Libm.real float_eq_exact (control.daily 1 2)
        (params.uniform (1 : ℝ)) (state.uniform (0 : ℝ))).wtfac_topsoil =
      Real.exp (0.66 * -1.5) :=
  have hfe : float_eq_exact (0 : ℝ) 0 = true := by simp [float_eq_exact]
  ⟨hfe, ((stress_model_2_at_empty Libm.real float_eq_exact (control.daily 1 2)
    (params.uniform (1 : ℝ)) (state.uniform (0 : ℝ)) rfl hfe).1
      (by norm_num [params.uniform, state.uniform])).2⟩

/-- C11. Stress model 0 at full storage: with `sw_stress_model = 0`, a layer whose storage
equals its non-zero capacity (`θ = 1`) gets the stress factor exactly 1, for every
exponent `qs`. -/
theorem stress_model_0_at_full (float_eq : ℝ → ℝ → Bool) (c : control) (p : params ℝ)
    (s : state ℝ) (hm : c.sw_stress_model = 0) :
    (p.wcapac_topsoil ≠ 0 → s.pawater_topsoil = p.wcapac_topsoil →
      (calculate_soil_water_fac Libm.real float_eq c p s).wtfac_topsoil = 1) ∧
    (p.wcapac_root ≠ 0 → s.pawater_root = p.wcapac_root →
      (calculate_soil_water_fac Libm.real float_eq c p s).wtfac_root = 1) := by
  have h := stress_model_0 Libm.real float_eq c p s hm
  refine ⟨?_, ?_⟩
  · intro hw hfull
    rw [h.1, hfull, div_self hw]
    exact Real.one_rpow p.qs
  · intro hw hfull
    rw [h.2, hfull, div_self hw]
    exact Real.one_rpow p.qs

/-- Witness for `stress_model_0_at_full`: both pools hold their capacity 3, `qs = 3`. -/
theorem stress_model_0_at_full_witness :
    (control.daily 1 0).sw_stress_model = 0 ∧
    (calculate_soil_water_fac Libm.real float_eq_exact (control.daily 1 0)
        (params.uniform (3 : ℝ)) (state.uniform (3 : ℝ))).wtfac_topsoil = 1 :=
  ⟨rfl, (stress_model_0_at_full float_eq_exact (control.daily 1 0) (params.uniform (3 : ℝ))
    (state.uniform (3 : ℝ)) rfl).1 (by norm_num [params.uniform])
      (by norm_num [params.uniform, state.uniform])⟩

theorem MIN_eq_min (a b : α) : MIN a b = min a b := by
  unfold MIN
  split_ifs with h
  · exact (min_eq_left (le_of_lt h)).symm
  · exact (min_eq_right (not_lt.mp h)).symm

theorem MAX_eq_max (a b : α) : MAX a b = max a b := by
  unfold MAX
  split_ifs with h
  · exact (max_eq_left (le_of_lt h)).symm
  · exact (max_eq_right (not_lt.mp h)).symm

/-- C12. Interception: `calc_infiltration` returns
`rain * intercep_frac * min(1, LAI / max_intercep_lai)` when `LAI > 0` and exactly 0 when
`LAI ≤ 0`. -/
theorem interception_formula (p : params α) (s : state α) (rain : α) :
    (0 < s.lai → calc_infiltration p s rain =
      rain * p.intercep_frac * min 1 (s.lai / p.max_intercep_lai)) ∧
    (s.lai ≤ 0 → calc_infiltration p s rain = 0) := by
  unfold calc_infiltration
  simp only [zero_lit, one_lit, MIN_eq_min]
  refine ⟨?_, ?_⟩
  · intro h
    rw [if_pos h]
  · intro h
    rw [if_neg (not_lt.mpr h)]

/-- C17. Penman-Monteith combination equation: for `gs > 0`, `penman_monteith` returns
`omega = (Δ/γ + 1) / (Δ/γ + 1 + ga/gs)` and
`et = (Δ net_rad + ρ cp vpd ga) / (Δ + γ (1 + ga/gs)) / λ`, with `λ = 2.501 - 0.002361 T`,
`γ = cp press / (0.6222 λ)`, `cp = 1.013E-3`,
`Δ = 4098 * 0.6108 * exp(17.27 T / (T + 237.3)) / (T + 237.3)^2` and
`ρ = 1.292 - 0.00428 T`. -/
theorem penman_monteith_combination (m : Libm α) (vpd gs net_rad tavg press ga : α)
    (hgs : 0 < gs) :
    (penman_monteith m vpd gs net_rad tavg press ga).omega =
        (calc_slope_of_saturation_vapour_pressure_curve m tavg /
            calc_pyschrometric_constant (calc_latent_heat_of_vapourisation tavg) press + 1) /
          (calc_slope_of_saturation_vapour_pressure_curve m tavg /
            calc_pyschrometric_constant (calc_latent_heat_of_vapourisation tavg) press + 1 +
            ga / gs) ∧
    (penman_monteith m vpd gs net_rad tavg press ga).et =
        (calc_slope_of_saturation_vapour_pressure_curve m tavg * net_rad +
            calc_density_of_air tavg * 1.013E-3 * vpd * ga) /
          (calc_slope_of_saturation_vapour_pressure_curve m tavg +
            calc_pyschrometric_constant (calc_latent_heat_of_vapourisation tavg) press *
              (1 + ga / gs)) /
          calc_latent_heat_of_vapourisation tavg ∧
    calc_latent_heat_of_vapourisation tavg = 2.501 - 0.002361 * tavg ∧
    calc_pyschrometric_constant (calc_latent_heat_of_vapourisation tavg) press =
        1.013E-3 * press / (0.6222 * (2.501 - 0.002361 * tavg)) ∧
    calc_slope_of_saturation_vapour_pressure_curve m tavg =
        4098 * 0.6108 * m.exp (17.27 * tavg / (tavg + 237.3)) / (tavg + 237.3) ^ 2 ∧
    calc_density_of_air tavg = 1.292 - 0.00428 * tavg := by
  refine ⟨?_, ?_, rfl, rfl, ?_, rfl⟩
  · unfold penman_monteith
    simp only [zero_lit, one_lit]
    rw [if_pos hgs]
  · unfold penman_monteith
    simp only [zero_lit, one_lit]
    rw [if_pos hgs]
  · unfold calc_slope_of_saturation_vapour_pressure_curve
    have h4 : (4098.0 : α) = 4098 := by norm_num
    simp only [h4]
    rw [sq, mul_assoc]

/-- Witness for `penman_monteith_combination`: open stomata, `gs = 1/100`, on the
rationals. -/
theorem penman_monteith_combination_witness :
    (0 : ℚ) < 1 / 100 ∧
    calc_density_of_air (20 : ℚ) = 1.292 - 0.00428 * 20 :=
  ⟨by norm_num, (penman_monteith_combination Libm.idle (1 : ℚ) (1 / 100) 12 20 101 (1 / 10)
    (by norm_num)).2.2.2.2.2⟩

/-- C19. No-stress mode: with `water_stress` off, after `update_water_storage` both stress
factors are exactly 1, for every input, every prior stress factor, every storage outcome
and every `sw_stress_model`. -/
theorem no_stress_mode (m : Libm α) (float_eq : α → α → Bool) (c : control) (p : params α)
    (s : state α) (rain interception transpiration soil_evap et : α)
    (hw : c.water_stress = 0) :
    (update_water_storage m float_eq c p s rain interception transpiration soil_evap
        et).s.wtfac_topsoil = 1 ∧
    (update_water_storage m float_eq c p s rain interception transpiration soil_evap
        et).s.wtfac_root = 1 := by
  unfold update_water_storage
  simp only [hw, ne_eq, not_true_eq_false, if_false, one_lit]
  exact ⟨trivial, trivial⟩

/-- Witness for `no_stress_mode`: a shutdown step (root storage 1, transpiration 3) under
stress model 2 with the stress feedback off. -/
theorem no_stress_mode_witness :
    (control.daily 0 2).water_stress = 0 ∧
    (update_water_storage Libm.idle float_eq_exact (control.daily 0 2) (params.uniform 5)
        (state.uniform (1 / 3 : ℚ)) 0 0 3 0 3).s.wtfac_topsoil = 1 ∧
    (update_water_storage Libm.idle float_eq_exact (control.daily 0 2) (params.uniform 5)
        (state.uniform (1 / 3 : ℚ)) 0 0 3 0 3).s.wtfac_root = 1 :=
  ⟨rfl, no_stress_mode Libm.idle float_eq_exact (control.daily 0 2) (params.uniform 5)
    (state.uniform (1 / 3 : ℚ)) 0 0 3 0 3 rfl⟩

/-- C18. Soil evaporation formula: for `LAI ≥ 0`, `calc_soil_evaporation` returns
`wtfac_topsoil * exp(-0.398 LAI) * (Δ / (Δ + γ)) * max(0, (1 - albedo) sw_rad -
(107 - 0.3 tair)) / λ`, with `Δ`, `γ`, `λ` the slope, psychrometric constant and latent
heat it computes at `tair` and `press`; at `LAI = 0` the shading factor is 1 and the
result is the unattenuated rate times `wtfac_topsoil`. -/
theorem soil_evaporation_formula (k : consts ℝ) (p : params ℝ) (s : state ℝ)
    (sw_rad press tair : ℝ) (hlai : 0 ≤ s.lai) :
    calc_soil_evaporation k Libm.real p s sw_rad press tair =
        s.wtfac_topsoil * Real.exp (-0.398 * s.lai) *
          (soil_evap_slope Libm.real tair /
            (soil_evap_slope Libm.real tair + soil_evap_gamma k press tair)) *
          max 0 ((1 - p.albedo) * sw_rad - (107 - 0.3 * tair)) /
          soil_evap_lambda k tair ∧
    (s.lai = 0 →
      calc_soil_evaporation k Libm.real p s sw_rad press tair =
        s.wtfac_topsoil *
          ((soil_evap_slope Libm.real tair /
              (soil_evap_slope Libm.real tair + soil_evap_gamma k press tair)) *
            max 0 ((1 - p.albedo) * sw_rad - (107 - 0.3 * tair)) /
            soil_evap_lambda k tair)) ∧
    soil_evap_lambda k tair = (k.H2OLV0 - 2.365E3 * tair) * k.H2OMW ∧
    soil_evap_gamma k press tair = k.CP * k.MASS_AIR * press / soil_evap_lambda k tair ∧
    soil_evap_slope Libm.real tair =
      (613.75 * Real.exp (17.502 * (tair + 0.1) / (240.97 + (tair + 0.1))) -
        613.75 * Real.exp (17.502 * tair / (240.97 + tair))) / 0.1 := by
  have h107 : (107.0 : ℝ) = 107 := by norm_num
  have hzero : s.lai = 0 →
      calc_soil_evaporation k Libm.real p s sw_rad press tair =
        s.wtfac_topsoil *
          ((soil_evap_slope Libm.real tair /
              (soil_evap_slope Libm.real tair + soil_evap_gamma k press tair)) *
            max 0 ((1 - p.albedo) * sw_rad - (107 - 0.3 * tair)) /
            soil_evap_lambda k tair) := by
    intro h0
    unfold calc_soil_evaporation
    simp only [zero_lit, one_lit, h107, MAX_eq_max, h0, lt_irrefl, if_false]
    ring
  refine ⟨?_, hzero, rfl, rfl, rfl⟩
  rcases eq_or_lt_of_le hlai with h0 | hpos
  · rw [hzero h0.symm, ← h0, mul_zero, Real.exp_zero]
    ring
  · unfold calc_soil_evaporation
    simp only [zero_lit, one_lit, h107, MAX_eq_max]
    rw [if_pos hpos]
    show _ * Real.exp (-0.398 * s.lai) * _ = _
    ring

/-- Witness for `soil_evaporation_formula`: bare soil, `LAI = 0`. -/
theorem soil_evaporation_formula_witness :
    (0 : ℝ) ≤ (state.uniform (0 : ℝ)).lai ∧
    soil_evap_lambda (consts.uniform (1 : ℝ)) 20 =
      ((consts.uniform (1 : ℝ)).H2OLV0 - 2.365E3 * 20) * (consts.uniform (1 : ℝ)).H2OMW :=
  have h : (0 : ℝ) ≤ (state.uniform (0 : ℝ)).lai := by norm_num [state.uniform]
  ⟨h, (soil_evaporation_formula (consts.uniform (1 : ℝ)) (params.uniform (1 / 5 : ℝ))
    (state.uniform (0 : ℝ)) 300 101 20 h).2.2.1⟩

theorem accumulate_hourly_cons (f : fluxes α) (h : hourly_fluxes α)
    (steps : List (hourly_fluxes α)) :
    accumulate_hourly f (h :: steps) =
      accumulate_hourly
        (sum_hourly_water_fluxes f h.soil_evap h.transpiration h.et h.interception h.runoff)
        steps := by
  unfold accumulate_hourly
  rfl

theorem accumulate_hourly_sums (steps : List (hourly_fluxes α)) :
    ∀ f : fluxes α,
      (accumulate_hourly f steps).soil_evap =
          f.soil_evap + (steps.map hourly_fluxes.soil_evap).sum ∧
        (accumulate_hourly f steps).transpiration =
          f.transpiration + (steps.map hourly_fluxes.transpiration).sum ∧
        (accumulate_hourly f steps).et = f.et + (steps.map hourly_fluxes.et).sum ∧
        (accumulate_hourly f steps).interception =
          f.interception + (steps.map hourly_fluxes.interception).sum ∧
        (accumulate_hourly f steps).runoff =
          f.runoff + (steps.map hourly_fluxes.runoff).sum := by
  induction steps with
  | nil =>
    intro f
    simp [accumulate_hourly]
  | cons h rest ih =>
    intro f
    rw [accumulate_hourly_cons]
    have hrec := ih
      (sum_hourly_water_fluxes f h.soil_evap h.transpiration h.et h.interception h.runoff)
    simp only [List.map_cons, List.sum_cons]
    refine ⟨?_, ?_, ?_, ?_, ?_⟩
    · rw [hrec.1]; simp only [sum_hourly_water_fluxes]; ring
    · rw [hrec.2.1]; simp only [sum_hourly_water_fluxes]; ring
    · rw [hrec.2.2.1]; simp only [sum_hourly_water_fluxes]; ring
    · rw [hrec.2.2.2.1]; simp only [sum_hourly_water_fluxes]; ring
    · rw [hrec.2.2.2.2]; simp only [sum_hourly_water_fluxes]; ring

/-- C20. Sub-daily accumulation: after `zero_water_day_fluxes` followed by any finite
sequence of `sum_hourly_water_fluxes` calls, each of `soil_evap`, `transpiration`, `et`,
`interception` and `runoff` is the sum of the corresponding arguments over the sequence,
and `sum_hourly_water_fluxes` changes no other field of the record. -/
theorem sub_daily_accumulation (f : fluxes α) (steps : List (hourly_fluxes α)) :
    ((accumulate_hourly (zero_water_day_fluxes f) steps).soil_evap =
        (steps.map hourly_fluxes.soil_evap).sum ∧
      (accumulate_hourly (zero_water_day_fluxes f) steps).transpiration =
        (steps.map hourly_fluxes.transpiration).sum ∧
      (accumulate_hourly (zero_water_day_fluxes f) steps).et =
        (steps.map hourly_fluxes.et).sum ∧
      (accumulate_hourly (zero_water_day_fluxes f) steps).interception =
        (steps.map hourly_fluxes.interception).sum ∧
      (accumulate_hourly (zero_water_day_fluxes f) steps).runoff =
        (steps.map hourly_fluxes.runoff).sum) ∧
    (∀ (g : fluxes α) (a b c d e : α),
      (sum_hourly_water_fluxes g a b c d e).gpp_gCm2 = g.gpp_gCm2 ∧
      (sum_hourly_water_fluxes g a b c d e).gpp_am = g.gpp_am ∧
      (sum_hourly_water_fluxes g a b c d e).gpp_pm = g.gpp_pm ∧
      (sum_hourly_water_fluxes g a b c d e).omega = g.omega ∧
      (sum_hourly_water_fluxes g a b c d e).gs_mol_m2_sec = g.gs_mol_m2_sec ∧
      (sum_hourly_water_fluxes g a b c d e).ga_mol_m2_sec = g.ga_mol_m2_sec) := by
  have h := accumulate_hourly_sums steps (zero_water_day_fluxes f)
  refine ⟨⟨?_, ?_, ?_, ?_, ?_⟩, ?_⟩
  · rw [h.1]; simp only [zero_water_day_fluxes, zero_lit, zero_add]
  · rw [h.2.1]; simp only [zero_water_day_fluxes, zero_lit, zero_add]
  · rw [h.2.2.1]; simp only [zero_water_day_fluxes, zero_lit, zero_add]
  · rw [h.2.2.2.1]; simp only [zero_water_day_fluxes, zero_lit, zero_add]
  · rw [h.2.2.2.2]; simp only [zero_water_day_fluxes, zero_lit, zero_add]
  · intro g a b c d e
    exact ⟨rfl, rfl, rfl, rfl, rfl, rfl⟩

/-! ## Soil texture tables -/

theorem mem_texture_classes (soil_type : String) :
    soil_type ∈ texture_classes ↔
      (soil_type = "sand" ∨ soil_type = "loamy_sand" ∨ soil_type = "sandy_loam" ∨
        soil_type = "loam" ∨ soil_type = "silty_loam" ∨ soil_type = "sandy_clay_loam" ∨
        soil_type = "clay_loam" ∨ soil_type = "silty_clay_loam" ∨
        soil_type = "sandy_clay" ∨ soil_type = "silty_clay" ∨ soil_type = "clay") := by
  unfold texture_classes
  simp only [List.mem_cons, List.mem_singleton, List.not_mem_nil, or_false]

theorem get_soil_fracs_cases (soil_type : String) :
    (soil_type ∈ texture_classes ∧
        ∃ f : soil_fracs α, get_soil_fracs soil_type = Except.ok f) ∨
      (soil_type ∉ texture_classes ∧
        (get_soil_fracs soil_type : Except String (soil_fracs α)) =
          Except.error "Could not understand soil type") := by
  unfold get_soil_fracs prog_error
  by_cases h1 : soil_type = "sand"
  · rw [if_pos h1]
    exact Or.inl ⟨by rw [mem_texture_classes]; tauto, ⟨_, rfl⟩⟩
  rw [if_neg h1]
  by_cases h2 : soil_type = "loamy_sand"
  · rw [if_pos h2]
    exact Or.inl ⟨by rw [mem_texture_classes]; tauto, ⟨_, rfl⟩⟩
  rw [if_neg h2]
  by_cases h3 : soil_type = "sandy_loam"
  · rw [if_pos h3]
    exact Or.inl ⟨by rw [mem_texture_classes]; tauto, ⟨_, rfl⟩⟩
  rw [if_neg h3]
  by_cases h4 : soil_type = "loam"
  · rw [if_pos h4]
    exact Or.inl ⟨by rw [mem_texture_classes]; tauto, ⟨_, rfl⟩⟩
  rw [if_neg h4]
  by_cases h5 : soil_type = "silty_loam"
  · rw [if_pos h5]
    exact Or.inl ⟨by rw [mem_texture_classes]; tauto, ⟨_, rfl⟩⟩
  rw [if_neg h5]
  by_cases h6 : soil_type = "sandy_clay_loam"
  · rw [if_pos h6]
    exact Or.inl ⟨by rw [mem_texture_classes]; tauto, ⟨_, rfl⟩⟩
  rw [if_neg h6]
  by_cases h7 : soil_type = "clay_loam"
  · rw [if_pos h7]
    exact Or.inl ⟨by rw [mem_texture_classes]; tauto, ⟨_, rfl⟩⟩
  rw [if_neg h7]
  by_cases h8 : soil_type = "silty_clay_loam"
  · rw [if_pos h8]
    exact Or.inl ⟨by rw [mem_texture_classes]; tauto, ⟨_, rfl⟩⟩
  rw [if_neg h8]
  by_cases h9 : soil_type = "sandy_clay"
  · rw [if_pos h9]
    exact Or.inl ⟨by rw [mem_texture_classes]; tauto, ⟨_, rfl⟩⟩
  rw [if_neg h9]
  by_cases h10 : soil_type = "silty_clay"
  · rw [if_pos h10]
    exact Or.inl ⟨by rw [mem_texture_classes]; tauto, ⟨_, rfl⟩⟩
  rw [if_neg h10]
  by_cases h11 : soil_type = "clay"
  · rw [if_pos h11]
    exact Or.inl ⟨by rw [mem_texture_classes]; tauto, ⟨_, rfl⟩⟩
  rw [if_neg h11]
  exact Or.inr ⟨by rw [mem_texture_classes]; tauto, rfl⟩

/-- C15. Unknown texture is fatal: `get_soil_fracs` returns a fraction triple if and only
if the name is one of the eleven texture classes; for every other string it raises the
fatal program error and yields no fractions. -/
theorem unknown_texture_fatal (soil_type : String) :
    ((∃ f : soil_fracs α, get_soil_fracs soil_type = Except.ok f) ↔
      soil_type ∈ texture_classes) ∧
    (soil_type ∉ texture_classes →
      (get_soil_fracs soil_type : Except String (soil_fracs α)) =
        prog_error "Could not understand soil type") := by
  rcases @get_soil_fracs_cases α _ soil_type with ⟨hmem, hok⟩ | ⟨hnot, herr⟩
  · exact ⟨⟨fun _ => hmem, fun _ => hok⟩, fun hn => absurd hmem hn⟩
  · refine ⟨⟨?_, fun h => absurd h hnot⟩, fun _ => herr⟩
    rintro ⟨f, hf⟩
    rw [herr] at hf
    cases hf

theorem soil_psi_sat_neg (f : soil_fracs ℝ) : soil_psi_sat Libm.real f < 0 := by
  unfold soil_psi_sat
  have h : (0 : ℝ) < (10.0 : ℝ) ^ (1.54 - 0.95 * f.sand + 0.63 * f.silt) :=
    Real.rpow_pos_of_pos (by norm_num) _
  show 0.01 * -((10.0 : ℝ) ^ (1.54 - 0.95 * f.sand + 0.63 * f.silt)) < 0
  have h01 : (0 : ℝ) < 0.01 := by norm_num
  nlinarith

theorem soil_params_eq (f : soil_fracs ℝ) :
    (calc_soil_params Libm.real f).theta_wp =
        (0.505 - 0.037 * f.clay - 0.142 * f.sand) *
          (soil_psi_sat Libm.real f / -152.9) ^ (1 / (3.1 + 15.7 * f.clay - 0.3 * f.sand)) ∧
      (calc_soil_params Libm.real f).theta_fc =
        (0.505 - 0.037 * f.clay - 0.142 * f.sand) *
          (soil_psi_sat Libm.real f / -3.364) ^ (1 / (3.1 + 15.7 * f.clay - 0.3 * f.sand)) := by
  unfold calc_soil_params
  simp only [one_lit]
  exact ⟨rfl, rfl⟩

theorem soil_params_order (f : soil_fracs ℝ)
    (hsp : 0 < 0.505 - 0.037 * f.clay - 0.142 * f.sand)
    (hb : 0 < 3.1 + 15.7 * f.clay - 0.3 * f.sand) :
    0 < (calc_soil_params Libm.real f).theta_wp ∧
      (calc_soil_params Libm.real f).theta_wp < (calc_soil_params Libm.real f).theta_fc := by
  have hpsi := soil_psi_sat_neg f
  have hwilt : 0 < soil_psi_sat Libm.real f / -152.9 :=
    div_pos_of_neg_of_neg hpsi (by norm_num)
  have hlt : soil_psi_sat Libm.real f / -152.9 < soil_psi_sat Libm.real f / -3.364 := by
    have e1 : soil_psi_sat Libm.real f / -152.9 =
        -soil_psi_sat Libm.real f * (1 / 152.9) := by ring
    have e2 : soil_psi_sat Libm.real f / -3.364 =
        -soil_psi_sat Libm.real f * (1 / 3.364) := by ring
    rw [e1, e2]
    exact mul_lt_mul_of_pos_left (by norm_num) (neg_pos.mpr hpsi)
  have he : 0 < 1 / (3.1 + 15.7 * f.clay - 0.3 * f.sand) := one_div_pos.mpr hb
  rw [(soil_params_eq f).1, (soil_params_eq f).2]
  refine ⟨mul_pos hsp (Real.rpow_pos_of_pos hwilt _), ?_⟩
  exact mul_lt_mul_of_pos_left (Real.rpow_lt_rpow (le_of_lt hwilt) hlt he) hsp

/-- C13. Texture table check: each of the eleven texture classes has a fraction triple in
`get_soil_fracs`, and the water contents `calc_soil_params` computes from it satisfy
`theta_fc > theta_wp > 0`; hence the water holding capacity `depth * (theta_fc - theta_wp)`
is strictly positive for every positive layer depth. -/
theorem texture_table_check :
    ∀ name ∈ texture_classes, ∃ f : soil_fracs ℝ,
      get_soil_fracs name = Except.ok f ∧
      0 < (calc_soil_params Libm.real f).theta_wp ∧
      (calc_soil_params Libm.real f).theta_wp < (calc_soil_params Libm.real f).theta_fc ∧
      ∀ depth : ℝ, 0 < depth →
        0 < depth *
          ((calc_soil_params Libm.real f).theta_fc -
            (calc_soil_params Libm.real f).theta_wp) := by
  have key : ∀ f : soil_fracs ℝ, 0 < 0.505 - 0.037 * f.clay - 0.142 * f.sand →
      0 < 3.1 + 15.7 * f.clay - 0.3 * f.sand →
      0 < (calc_soil_params Libm.real f).theta_wp ∧
      (calc_soil_params Libm.real f).theta_wp < (calc_soil_params Libm.real f).theta_fc ∧
      ∀ depth : ℝ, 0 < depth →
        0 < depth *
          ((calc_soil_params Libm.real f).theta_fc -
            (calc_soil_params Libm.real f).theta_wp) := by
    intro f hsp hb
    have h := soil_params_order f hsp hb
    exact ⟨h.1, h.2, fun depth hd => mul_pos hd (sub_pos.mpr h.2)⟩
  intro name hmem
  simp only [texture_classes, List.mem_cons, List.mem_singleton, List.not_mem_nil,
    or_false] at hmem
  rcases hmem with h | h | h | h | h | h | h | h | h | h | h <;> subst h
  all_goals
    refine ⟨_, rfl, key _ ?_ ?_⟩ <;> norm_num

/-- Witness for `texture_table_check`: the class loam. -/
theorem texture_table_check_witness :
    "loam" ∈ texture_classes ∧
    ∃ f : soil_fracs ℝ,
      get_soil_fracs "loam" = Except.ok f ∧
      0 < (calc_soil_params Libm.real f).theta_wp ∧
      (calc_soil_params Libm.real f).theta_wp < (calc_soil_params Libm.real f).theta_fc ∧
      ∀ depth : ℝ, 0 < depth →
        0 < depth *
          ((calc_soil_params Libm.real f).theta_fc -
            (calc_soil_params Libm.real f).theta_wp) :=
  have hmem : "loam" ∈ texture_classes := by decide
  ⟨hmem, texture_table_check "loam" hmem⟩

theorem rpow_ratio_pow (a : ℝ) (p q : ℕ) (ha : 0 ≤ a) (hq : 0 < q) :
    (a ^ ((p : ℝ) / (q : ℝ))) ^ q = a ^ p := by
  have hq0 : (q : ℝ) ≠ 0 := Nat.cast_ne_zero.mpr (Nat.pos_iff_ne_zero.mp hq)
  rw [← Real.rpow_natCast, ← Real.rpow_mul ha, div_mul_cancel₀ _ hq0, Real.rpow_natCast]

theorem rpow_ratio_lt (a c : ℝ) (p q : ℕ) (ha : 0 ≤ a) (hc : 0 ≤ c) (hq : 0 < q)
    (h : a ^ p < c ^ q) : a ^ ((p : ℝ) / (q : ℝ)) < c := by
  by_contra hcon
  have h1 : c ^ q ≤ (a ^ ((p : ℝ) / (q : ℝ))) ^ q := pow_le_pow_left₀ hc (not_lt.mp hcon) q
  rw [rpow_ratio_pow a p q ha hq] at h1
  exact absurd h (not_lt.mpr h1)

theorem lt_rpow_ratio (a c : ℝ) (p q : ℕ) (ha : 0 ≤ a) (hq : 0 < q)
    (h : c ^ q < a ^ p) : c < a ^ ((p : ℝ) / (q : ℝ)) := by
  by_contra hcon
  have h1 : (a ^ ((p : ℝ) / (q : ℝ))) ^ q ≤ c ^ q :=
    pow_le_pow_left₀ (Real.rpow_nonneg ha _) (not_lt.mp hcon) q
  rw [rpow_ratio_pow a p q ha hq] at h1
  exact absurd h (not_lt.mpr h1)

theorem sand_psi_sat_bounds :
    -0.05 < soil_psi_sat Libm.real { silt := 0.05, sand := 0.92, clay := 0.03 } ∧
      soil_psi_sat Libm.real { silt := 0.05, sand := 0.92, clay := 0.03 } < -0.049 := by
  have he : (1.54 - 0.95 * 0.92 + 0.63 * 0.05 : ℝ) = ((279 : ℕ) : ℝ) / ((400 : ℕ) : ℝ) := by
    norm_num
  have hup : (10 : ℝ) ^ (((279 : ℕ) : ℝ) / ((400 : ℕ) : ℝ)) < 5 :=
    rpow_ratio_lt 10 5 279 400 (by norm_num) (by norm_num) (by norm_num) (by norm_num)
  have hlo : (4.9 : ℝ) < (10 : ℝ) ^ (((279 : ℕ) : ℝ) / ((400 : ℕ) : ℝ)) :=
    lt_rpow_ratio 10 4.9 279 400 (by norm_num) (by norm_num) (by norm_num)
  have hdef : soil_psi_sat Libm.real { silt := 0.05, sand := 0.92, clay := 0.03 } =
      0.01 * -((10 : ℝ) ^ (((279 : ℕ) : ℝ) / ((400 : ℕ) : ℝ))) := by
    rw [← he]
    unfold soil_psi_sat
    have h10 : (10.0 : ℝ) = 10 := by norm_num
    rw [h10]
    rfl
  rw [hdef]
  constructor <;> linarith

theorem clay_psi_sat_bounds :
    -0.29 < soil_psi_sat Libm.real { silt := 0.2, sand := 0.22, clay := 0.58 } ∧
      soil_psi_sat Libm.real { silt := 0.2, sand := 0.22, clay := 0.58 } < -0.28 := by
  have he : (1.54 - 0.95 * 0.22 + 0.63 * 0.2 : ℝ) = ((1457 : ℕ) : ℝ) / ((1000 : ℕ) : ℝ) := by
    norm_num
  have hup : (10 : ℝ) ^ (((1457 : ℕ) : ℝ) / ((1000 : ℕ) : ℝ)) < 29 :=
    rpow_ratio_lt 10 29 1457 1000 (by norm_num) (by norm_num) (by norm_num) (by norm_num)
  have hlo : (28 : ℝ) < (10 : ℝ) ^ (((1457 : ℕ) : ℝ) / ((1000 : ℕ) : ℝ)) :=
    lt_rpow_ratio 10 28 1457 1000 (by norm_num) (by norm_num) (by norm_num)
  have hdef : soil_psi_sat Libm.real { silt := 0.2, sand := 0.22, clay := 0.58 } =
      0.01 * -((10 : ℝ) ^ (((1457 : ℕ) : ℝ) / ((1000 : ℕ) : ℝ))) := by
    rw [← he]
    unfold soil_psi_sat
    have h10 : (10.0 : ℝ) = 10 := by norm_num
    rw [h10]
    rfl
  rw [hdef]
  constructor <;> linarith

theorem sand_capacity_upper :
    (calc_soil_params Libm.real { silt := 0.05, sand := 0.92, clay := 0.03 }).theta_fc -
      (calc_soil_params Libm.real { silt := 0.05, sand := 0.92, clay := 0.03 }).theta_wp <
        0.0822 := by
  have hpsi := sand_psi_sat_bounds
  have h := soil_params_eq { silt := 0.05, sand := 0.92, clay := 0.03 }
  have he : (1 / (3.1 + 15.7 * 0.03 - 0.3 * 0.92) : ℝ) =
      ((200 : ℕ) : ℝ) / ((659 : ℕ) : ℝ) := by norm_num
  have hsp : (0.505 - 0.037 * 0.03 - 0.142 * 0.92 : ℝ) = 0.37325 := by norm_num
  simp only [he, hsp] at h
  rw [h.1, h.2]
  generalize soil_psi_sat Libm.real { silt := 0.05, sand := 0.92, clay := 0.03 } = x at hpsi
  have hfc0 : 0 ≤ x / -3.364 := le_of_lt (div_pos_of_neg_of_neg (by linarith) (by norm_num))
  have hfc1 : x / -3.364 ≤ 0.015 := by
    rw [div_le_iff_of_neg (by norm_num)]
    linarith
  have hwp1 : (0.00032 : ℝ) ≤ x / -152.9 := by
    rw [le_div_iff_of_neg (by norm_num)]
    linarith
  have hA : (x / -3.364) ^ (((200 : ℕ) : ℝ) / ((659 : ℕ) : ℝ)) < 0.3 :=
    lt_of_le_of_lt (Real.rpow_le_rpow hfc0 hfc1 (by positivity))
      (rpow_ratio_lt 0.015 0.3 200 659 (by norm_num) (by norm_num) (by norm_num)
        (by norm_num))
  have hB : 0.08 < (x / -152.9) ^ (((200 : ℕ) : ℝ) / ((659 : ℕ) : ℝ)) :=
    lt_of_lt_of_le
      (lt_rpow_ratio 0.00032 0.08 200 659 (by norm_num) (by norm_num) (by norm_num))
      (Real.rpow_le_rpow (by norm_num) hwp1 (by positivity))
  linarith

theorem clay_capacity_lower :
    0.0904 <
      (calc_soil_params Libm.real { silt := 0.2, sand := 0.22, clay := 0.58 }).theta_fc -
        (calc_soil_params Libm.real { silt := 0.2, sand := 0.22, clay := 0.58 }).theta_wp := by
  have hpsi := clay_psi_sat_bounds
  have h := soil_params_eq { silt := 0.2, sand := 0.22, clay := 0.58 }
  have he : (1 / (3.1 + 15.7 * 0.58 - 0.3 * 0.22) : ℝ) =
      ((50 : ℕ) : ℝ) / ((607 : ℕ) : ℝ) := by norm_num
  have hsp : (0.505 - 0.037 * 0.58 - 0.142 * 0.22 : ℝ) = 0.4523 := by norm_num
  simp only [he, hsp] at h
  rw [h.1, h.2]
  generalize soil_psi_sat Libm.real { silt := 0.2, sand := 0.22, clay := 0.58 } = x at hpsi
  have hwp0 : 0 ≤ x / -152.9 := le_of_lt (div_pos_of_neg_of_neg (by linarith) (by norm_num))
  have hwp1 : x / -152.9 ≤ 0.0019 := by
    rw [div_le_iff_of_neg (by norm_num)]
    linarith
  have hfc1 : (0.083 : ℝ) ≤ x / -3.364 := by
    rw [le_div_iff_of_neg (by norm_num)]
    linarith
  have hA : 0.8 < (x / -3.364) ^ (((50 : ℕ) : ℝ) / ((607 : ℕ) : ℝ)) :=
    lt_of_lt_of_le
      (lt_rpow_ratio 0.083 0.8 50 607 (by norm_num) (by norm_num) (by norm_num))
      (Real.rpow_le_rpow (by norm_num) hfc1 (by positivity))
  have hB : (x / -152.9) ^ (((50 : ℕ) : ℝ) / ((607 : ℕ) : ℝ)) < 0.6 :=
    lt_of_le_of_lt (Real.rpow_le_rpow hwp0 hwp1 (by positivity))
      (rpow_ratio_lt 0.0019 0.6 50 607 (by norm_num) (by norm_num) (by norm_num)
        (by norm_num))
  linarith

theorem initialise_sw_modifier_keeps (p q : params α)
    (h : initialise_sw_modifier p = Except.ok q) :
    q.wcapac_topsoil = p.wcapac_topsoil ∧ q.wcapac_root = p.wcapac_root := by
  unfold initialise_sw_modifier at h
  by_cases hc : p.ctheta_topsoil < -900.0 ∧ p.ntheta_topsoil < -900.0 ∧
      p.ctheta_root < -900.0 ∧ p.ntheta_root < -900.0
  · rw [if_pos hc] at h
    cases hA : (get_soil_params p.topsoil_type : Except String (sw_coeffs α)) with
    | error e =>
      rw [hA] at h
      cases h
    | ok top =>
      rw [hA] at h
      simp only [] at h
      cases hB : (get_soil_params p.rootsoil_type : Except String (sw_coeffs α)) with
      | error e =>
        rw [hB] at h
        cases h
      | ok root =>
        rw [hB] at h
        cases h
        exact ⟨rfl, rfl⟩
  · rw [if_neg hc] at h
    cases h
    exact ⟨rfl, rfl⟩

theorem initialise_capacities_ok (m : Libm α) (c : control) (p q : params α)
    (hc : c.calc_sw_params ≠ 0) (h : initialise_capacities m c p = Except.ok q) :
    ∃ ft fr : soil_fracs α,
      get_soil_fracs p.topsoil_type = Except.ok ft ∧
      get_soil_fracs p.rootsoil_type = Except.ok fr ∧
      q.wcapac_topsoil =
        p.topsoil_depth * ((calc_soil_params m ft).theta_fc - (calc_soil_params m ft).theta_wp) ∧
      q.wcapac_root =
        p.rooting_depth *
          ((calc_soil_params m fr).theta_fc - (calc_soil_params m fr).theta_wp) := by
  unfold initialise_capacities at h
  rw [if_pos hc] at h
  cases hA : (get_soil_fracs p.topsoil_type : Except String (soil_fracs α)) with
  | error e =>
    rw [hA] at h
    cases h
  | ok ft =>
    cases hB : (get_soil_fracs p.rootsoil_type : Except String (soil_fracs α)) with
    | error e =>
      rw [hA, hB] at h
      cases h
    | ok fr =>
      rw [hA, hB] at h
      cases h
      exact ⟨ft, fr, rfl, rfl, rfl, rfl⟩

theorem initialise_wcapac (m : Libm α) (c : control) (p q : params α)
    (hc : c.calc_sw_params ≠ 0)
    (h : initialise_soil_moisture_parameters m c p = Except.ok q) :
    ∃ ft fr : soil_fracs α,
      get_soil_fracs p.topsoil_type = Except.ok ft ∧
      get_soil_fracs p.rootsoil_type = Except.ok fr ∧
      q.wcapac_topsoil =
        p.topsoil_depth * ((calc_soil_params m ft).theta_fc - (calc_soil_params m ft).theta_wp) ∧
      q.wcapac_root =
        p.rooting_depth *
          ((calc_soil_params m fr).theta_fc - (calc_soil_params m fr).theta_wp) := by
  unfold initialise_soil_moisture_parameters at h
  cases hA : initialise_capacities m c p with
  | error e =>
    rw [hA] at h
    cases h
  | ok p1 =>
    rw [hA] at h
    simp only [] at h
    obtain ⟨ft, fr, h1, h2, h3, h4⟩ := initialise_capacities_ok m c p p1 hc hA
    have hk := initialise_sw_modifier_keeps p1 q h
    exact ⟨ft, fr, h1, h2, by rw [hk.1, h3], by rw [hk.2, h4]⟩

theorem get_soil_fracs_sand :
    (get_soil_fracs "sand" : Except String (soil_fracs α)) =
      Except.ok { silt := 0.05, sand := 0.92, clay := 0.03 } := by
  unfold get_soil_fracs
  rw [if_pos rfl]

theorem get_soil_fracs_clay :
    (get_soil_fracs "clay" : Except String (soil_fracs α)) =
      Except.ok { silt := 0.2, sand := 0.22, clay := 0.58 } := by
  rfl

/-- C14. Sand holds less water than clay: with `calc_sw_params` on, for layers of the same
positive depth the water holding capacity `depth * (theta_fc - theta_wp)` that
`initialise_soil_moisture_parameters` derives for the texture class sand is strictly lower
than the one it derives for clay, in the topsoil and in the root zone. -/
theorem sand_holds_less_than_clay (c : control) (p_sand p_clay q_sand q_clay : params ℝ)
    (hc : c.calc_sw_params ≠ 0)
    (hs : initialise_soil_moisture_parameters Libm.real c p_sand = Except.ok q_sand)
    (hcl : initialise_soil_moisture_parameters Libm.real c p_clay = Except.ok q_clay) :
    (p_sand.topsoil_type = "sand" → p_clay.topsoil_type = "clay" →
      0 < p_sand.topsoil_depth → p_clay.topsoil_depth = p_sand.topsoil_depth →
      q_sand.wcapac_topsoil < q_clay.wcapac_topsoil) ∧
    (p_sand.rootsoil_type = "sand" → p_clay.rootsoil_type = "clay" →
      0 < p_sand.rooting_depth → p_clay.rooting_depth = p_sand.rooting_depth →
      q_sand.wcapac_root < q_clay.wcapac_root) := by
  obtain ⟨st, sr, hst, hsr, hswt, hswr⟩ :=
    initialise_wcapac Libm.real c p_sand q_sand hc hs
  obtain ⟨ct, cr, hct, hcr, hcwt, hcwr⟩ :=
    initialise_wcapac Libm.real c p_clay q_clay hc hcl
  have hsand := sand_capacity_upper
  have hclay := clay_capacity_lower
  refine ⟨?_, ?_⟩
  · intro h1 h2 hd hsame
    rw [h1, get_soil_fracs_sand] at hst
    rw [h2, get_soil_fracs_clay] at hct
    cases hst
    cases hct
    rw [hswt, hcwt, hsame]
    exact mul_lt_mul_of_pos_left (by linarith) hd
  · intro h1 h2 hd hsame
    rw [h1, get_soil_fracs_sand] at hsr
    rw [h2, get_soil_fracs_clay] at hcr
    cases hsr
    cases hcr
    rw [hswr, hcwr, hsame]
    exact mul_lt_mul_of_pos_left (by linarith) hd

theorem initialise_returns (m : Libm α) (c : control) (p : params α) (ft fr : soil_fracs α)
    (ht : get_soil_fracs p.topsoil_type = Except.ok ft)
    (hr : get_soil_fracs p.rootsoil_type = Except.ok fr)
    (hu : ¬ (p.ctheta_topsoil < -900.0)) :
    ∃ q : params α, initialise_soil_moisture_parameters m c p = Except.ok q := by
  unfold initialise_soil_moisture_parameters initialise_capacities
  by_cases hc : c.calc_sw_params ≠ 0
  · rw [if_pos hc, ht, hr]
    simp only []
    unfold initialise_sw_modifier
    rw [if_neg (fun h => hu h.1)]
    exact ⟨_, rfl⟩
  · rw [if_neg hc]
    simp only []
    unfold initialise_sw_modifier
    rw [if_neg (fun h => hu h.1)]
    exact ⟨_, rfl⟩

/-- Witness for `sand_holds_less_than_clay`: both layers 1 m deep, once on sand and once
on clay; the initialisation returns for both and the sand topsoil holds less. -/
theorem sand_holds_less_than_clay_witness :
    ∃ q_sand q_clay : params ℝ,
      initialise_soil_moisture_parameters Libm.real control.deriving_soil
          (params.on_soil 1 "sand") = Except.ok q_sand ∧
        initialise_soil_moisture_parameters Libm.real control.deriving_soil
          (params.on_soil 1 "clay") = Except.ok q_clay ∧
        q_sand.wcapac_topsoil < q_clay.wcapac_topsoil := by
  have hu : ¬ ((1 : ℝ) < -900.0) := by norm_num
  obtain ⟨q_sand, hs⟩ := initialise_returns Libm.real control.deriving_soil
    (params.on_soil (1 : ℝ) "sand") _ _ get_soil_fracs_sand get_soil_fracs_sand hu
  obtain ⟨q_clay, hcl⟩ := initialise_returns Libm.real control.deriving_soil
    (params.on_soil (1 : ℝ) "clay") _ _ get_soil_fracs_clay get_soil_fracs_clay hu
  exact ⟨q_sand, q_clay, hs, hcl,
    (sand_holds_less_than_clay control.deriving_soil (params.on_soil 1 "sand")
      (params.on_soil 1 "clay") q_sand q_clay (by decide) hs hcl).1 rfl rfl
      (by norm_num [params.on_soil]) rfl⟩


theorem canopy_calm (m : Libm α) (p : params α) (canht : α) :
    canopy_boundary_layer_conductance m p 0 canht = 0 := by
  unfold canopy_boundary_layer_conductance
  simp only [mul_zero, zero_div]

theorem penman_monteith_calm (m : Libm α) (vpd gs net_rad tavg press : α) (hgs : 0 < gs) :
    (penman_monteith m vpd gs net_rad tavg press 0).et =
      calc_slope_of_saturation_vapour_pressure_curve m tavg * net_rad /
        (calc_slope_of_saturation_vapour_pressure_curve m tavg +
          calc_pyschrometric_constant (calc_latent_heat_of_vapourisation tavg) press) /
        calc_latent_heat_of_vapourisation tavg := by
  unfold penman_monteith
  simp only [zero_lit, one_lit]
  rw [if_pos hgs]
  simp only [zero_div, mul_zero, add_zero, mul_one]

theorem am_pm_calm (k : consts α) (m : Libm α) (p : params α) (s : state α)
    (net_rad ca daylen press vpd tair gpp : α)
    (hgs : 0 < calc_stomatal_conductance k m p.g1 s.wtfac_root vpd ca (daylen / 2.0) gpp *
      (k.MM_TO_M / (press / (k.RGAS * (tair + k.DEG_TO_KELVIN))))) :
    (calc_transpiration_penmon_am_pm k m p s net_rad 0 ca daylen press vpd tair gpp).trans =
      calc_slope_of_saturation_vapour_pressure_curve m tair * net_rad /
        (calc_slope_of_saturation_vapour_pressure_curve m tair +
          calc_pyschrometric_constant (calc_latent_heat_of_vapourisation tair) press) /
        calc_latent_heat_of_vapourisation tair * (60.0 * 60.0 * (daylen / 2.0)) := by
  unfold calc_transpiration_penmon_am_pm
  simp only [canopy_calm]
  rw [penman_monteith_calm m vpd _ net_rad tair press hgs]

theorem daily_step_transpiration (k : consts α) (m : Libm α) (float_eq : α → α → Bool)
    (c : control) (f : fluxes α) (mt : met α) (p : params α) (s : state α) (day_idx : Nat)
    (daylen : Int) (trans_leaf net_rad_am net_rad_pm : α) (hd : c.sub_daily = 0) :
    (calculate_water_balance k m float_eq c f mt p s day_idx daylen trans_leaf net_rad_am
        net_rad_pm).1.transpiration =
      (update_water_storage m float_eq c p s (mt.rain day_idx)
        (calc_infiltration p s (mt.rain day_idx))
        ((calc_transpiration_penmon_am_pm k m p s net_rad_am (mt.wind_am day_idx)
            (mt.co2 day_idx) (daylen : α) (mt.press day_idx * k.KPA_2_PA)
            (mt.vpd_am day_idx) (mt.tam day_idx) f.gpp_am).trans +
          (calc_transpiration_penmon_am_pm k m p s net_rad_pm (mt.wind_pm day_idx)
            (mt.co2 day_idx) (daylen : α) (mt.press day_idx * k.KPA_2_PA)
            (mt.vpd_pm day_idx) (mt.tpm day_idx) f.gpp_pm).trans)
        (calc_soil_evaporation k m p s (mt.sw_rad day_idx) (mt.press day_idx * k.KPA_2_PA)
            (mt.tair day_idx) *
          (k.MOLE_WATER_2_G_WATER * k.G_TO_KG * (60.0 * 60.0 * (daylen : α))))
        ((calc_transpiration_penmon_am_pm k m p s net_rad_am (mt.wind_am day_idx)
            (mt.co2 day_idx) (daylen : α) (mt.press day_idx * k.KPA_2_PA)
            (mt.vpd_am day_idx) (mt.tam day_idx) f.gpp_am).trans +
          (calc_transpiration_penmon_am_pm k m p s net_rad_pm (mt.wind_pm day_idx)
            (mt.co2 day_idx) (daylen : α) (mt.press day_idx * k.KPA_2_PA)
            (mt.vpd_pm day_idx) (mt.tpm day_idx) f.gpp_pm).trans +
          calc_soil_evaporation k m p s (mt.sw_rad day_idx) (mt.press day_idx * k.KPA_2_PA)
              (mt.tair day_idx) *
            (k.MOLE_WATER_2_G_WATER * k.G_TO_KG * (60.0 * 60.0 * (daylen : α))) +
          calc_infiltration p s (mt.rain day_idx))).transpiration := by
  unfold calculate_water_balance
  simp only [hd, ne_eq, not_true_eq_false, if_false]
  rfl


theorem infiltration_no_rain (p : params α) (s : state α) : calc_infiltration p s 0 = 0 := by
  unfold calc_infiltration
  split_ifs
  · rw [zero_mul, zero_mul]
  · exact zero_lit

theorem stand_soil_evaporation (k : consts ℝ) (m : Libm ℝ) (press : ℝ) :
    calc_soil_evaporation k m params.stand state.stand 100 press 0 = 0 := by
  have hnet : MAX (0.0 : ℝ) ((1.0 - (params.stand : params ℝ).albedo) * 100 -
      (107.0 - 0.3 * 0)) = 0 := by
    rw [MAX_eq_max]
    norm_num [params.stand]
  unfold calc_soil_evaporation
  simp only [hnet]
  simp only [mul_zero, zero_div, zero_mul, ite_self]

theorem stand_conductance_pos (k : consts ℝ) (h1 : 0 < k.DEG_TO_KELVIN) (h2 : 0 < k.MM_TO_M)
    (h3 : 0 < k.RGAS) (h4 : 0 < k.GRAMS_C_TO_MOL_C) (h5 : 0 < k.MOL_TO_UMOL)
    (h6 : 0 < k.KPA_2_PA) :
    0 < calc_stomatal_conductance k Libm.real (params.stand : params ℝ).g1
        (state.stand : state ℝ).wtfac_root 1 400 (((12 : Int) : ℝ) / 2.0) 5 *
      (k.MM_TO_M / (100 * k.KPA_2_PA / (k.RGAS * (0 + k.DEG_TO_KELVIN)))) := by
  have hs : Libm.real.sqrt 1 = 1 := Real.sqrt_one
  unfold calc_stomatal_conductance
  simp only [hs, params.stand, state.stand]
  have hA : (0 : ℝ) < 1.6 * (1.0 + 4 * 1 / 1) := by norm_num
  have hB : (0 : ℝ) < 5 * k.GRAMS_C_TO_MOL_C * k.MOL_TO_UMOL *
      (1.0 / (60.0 * 60.0 * (((12 : Int) : ℝ) / 2.0))) / 400 := by
    have : (0 : ℝ) < 1.0 / (60.0 * 60.0 * (((12 : Int) : ℝ) / 2.0)) := by norm_num
    positivity
  have hC : 0 < k.MM_TO_M / (100 * k.KPA_2_PA / (k.RGAS * (0 + k.DEG_TO_KELVIN))) := by
    rw [zero_add]
    positivity
  exact mul_pos (mul_pos hA hB) hC

theorem stand_transpiration (k : consts ℝ) (float_eq : ℝ → ℝ → Bool) (c : control)
    (day_idx : Nat) (trans_leaf g : ℝ) (hd : c.sub_daily = 0) (hg : g ≤ 0)
    (h1 : 0 < k.DEG_TO_KELVIN) (h2 : 0 < k.MM_TO_M) (h3 : 0 < k.RGAS)
    (h4 : 0 < k.GRAMS_C_TO_MOL_C) (h5 : 0 < k.MOL_TO_UMOL) (h6 : 0 < k.KPA_2_PA) :
    (calculate_water_balance k Libm.real float_eq c fluxes.stand met.calm_day params.stand
        state.stand day_idx 12 trans_leaf g g).1.transpiration =
      2 * (calc_slope_of_saturation_vapour_pressure_curve Libm.real 0 * g /
        (calc_slope_of_saturation_vapour_pressure_curve Libm.real 0 +
          calc_pyschrometric_constant (calc_latent_heat_of_vapourisation 0)
            (100 * k.KPA_2_PA)) /
        calc_latent_heat_of_vapourisation 0 * 21600) ∧
    0 < calc_slope_of_saturation_vapour_pressure_curve Libm.real 0 /
        (calc_slope_of_saturation_vapour_pressure_curve Libm.real 0 +
          calc_pyschrometric_constant (calc_latent_heat_of_vapourisation 0)
            (100 * k.KPA_2_PA)) /
        calc_latent_heat_of_vapourisation (0 : ℝ) := by
  have hslope : 0 < calc_slope_of_saturation_vapour_pressure_curve Libm.real 0 := by
    unfold calc_slope_of_saturation_vapour_pressure_curve
    show 0 < 4098.0 * (0.6108 * Real.exp (17.27 * 0 / (0 + 237.3))) /
      ((0 + 237.3) * (0 + 237.3))
    have := Real.exp_pos (17.27 * 0 / (0 + 237.3))
    positivity
  have hlam : (0 : ℝ) < calc_latent_heat_of_vapourisation 0 := by
    unfold calc_latent_heat_of_vapourisation
    norm_num
  have hgam : 0 < calc_pyschrometric_constant (calc_latent_heat_of_vapourisation 0)
      (100 * k.KPA_2_PA) := by
    unfold calc_pyschrometric_constant
    simp only []
    positivity
  have hcoef : 0 < calc_slope_of_saturation_vapour_pressure_curve Libm.real 0 /
        (calc_slope_of_saturation_vapour_pressure_curve Libm.real 0 +
          calc_pyschrometric_constant (calc_latent_heat_of_vapourisation 0)
            (100 * k.KPA_2_PA)) /
        calc_latent_heat_of_vapourisation (0 : ℝ) := by
    positivity
  refine ⟨?_, hcoef⟩
  rw [daily_step_transpiration k Libm.real float_eq c fluxes.stand met.calm_day params.stand
    state.stand day_idx 12 trans_leaf g g hd]
  simp only [met.calm_day, fluxes.stand]
  rw [infiltration_no_rain, stand_soil_evaporation,
    am_pm_calm k Libm.real params.stand state.stand g 400 ((12 : Int) : ℝ)
      (100 * k.KPA_2_PA) 1 0 5 (stand_conductance_pos k h1 h2 h3 h4 h5 h6)]
  rw [(update_fluxes Libm.real float_eq c params.stand state.stand _ _ _ _ _).1]
  have hsecs : (60.0 * 60.0 * (((12 : Int) : ℝ) / 2.0) : ℝ) = 21600 := by norm_num
  rw [hsecs]
  have hT : calc_slope_of_saturation_vapour_pressure_curve Libm.real 0 * g /
        (calc_slope_of_saturation_vapour_pressure_curve Libm.real 0 +
          calc_pyschrometric_constant (calc_latent_heat_of_vapourisation 0)
            (100 * k.KPA_2_PA)) /
        calc_latent_heat_of_vapourisation 0 * 21600 ≤ 0 := by
    have e : calc_slope_of_saturation_vapour_pressure_curve Libm.real 0 * g /
        (calc_slope_of_saturation_vapour_pressure_curve Libm.real 0 +
          calc_pyschrometric_constant (calc_latent_heat_of_vapourisation 0)
            (100 * k.KPA_2_PA)) /
        calc_latent_heat_of_vapourisation 0 * 21600 =
        g * (calc_slope_of_saturation_vapour_pressure_curve Libm.real 0 /
        (calc_slope_of_saturation_vapour_pressure_curve Libm.real 0 +
          calc_pyschrometric_constant (calc_latent_heat_of_vapourisation 0)
            (100 * k.KPA_2_PA)) /
        calc_latent_heat_of_vapourisation 0 * 21600) := by ring
    rw [e]
    exact mul_nonpos_of_nonpos_of_nonneg hg (by positivity)
  rw [if_neg, two_mul]
  rw [root_after_runoff_eq, not_lt]
  refine le_min ?_ (by norm_num [params.stand])
  unfold root_before_runoff
  simp only [state.stand]
  linarith

/-- C16, where the code departs from the claim. `calculate_water_balance` passes the locals
`net_rad_am` and `net_rad_pm` to `calc_transpiration_penmon_am_pm` without assigning them,
so the daily step is not a function of its inputs alone: on the calm day of the stand, with
every input equal, the step returns transpiration 0 when the two locals happen to hold 0
and a negative transpiration when they happen to hold -1. This holds for all positive
values of the header constants. -/
theorem unassigned_net_rad_decides_transpiration (k : consts ℝ) (float_eq : ℝ → ℝ → Bool)
    (c : control) (day_idx : Nat) (trans_leaf : ℝ) (hd : c.sub_daily = 0)
    (h1 : 0 < k.DEG_TO_KELVIN) (h2 : 0 < k.MM_TO_M) (h3 : 0 < k.RGAS)
    (h4 : 0 < k.GRAMS_C_TO_MOL_C) (h5 : 0 < k.MOL_TO_UMOL) (h6 : 0 < k.KPA_2_PA) :
    (calculate_water_balance k Libm.real float_eq c fluxes.stand met.calm_day params.stand
        state.stand day_idx 12 trans_leaf 0 0).1.transpiration = 0 ∧
    (calculate_water_balance k Libm.real float_eq c fluxes.stand met.calm_day params.stand
        state.stand day_idx 12 trans_leaf (-1) (-1)).1.transpiration < 0 := by
  have hzero := stand_transpiration k float_eq c day_idx trans_leaf 0 hd (le_refl 0)
    h1 h2 h3 h4 h5 h6
  have hneg := stand_transpiration k float_eq c day_idx trans_leaf (-1) hd (by norm_num)
    h1 h2 h3 h4 h5 h6
  refine ⟨?_, ?_⟩
  · rw [hzero.1]
    simp only [mul_zero, zero_div, zero_mul]
  · rw [hneg.1]
    have hcoef := hneg.2
    have e : 2 * (calc_slope_of_saturation_vapour_pressure_curve Libm.real 0 * (-1) /
        (calc_slope_of_saturation_vapour_pressure_curve Libm.real 0 +
          calc_pyschrometric_constant (calc_latent_heat_of_vapourisation 0)
            (100 * k.KPA_2_PA)) /
        calc_latent_heat_of_vapourisation 0 * 21600) =
        -(43200 * (calc_slope_of_saturation_vapour_pressure_curve Libm.real 0 /
        (calc_slope_of_saturation_vapour_pressure_curve Libm.real 0 +
          calc_pyschrometric_constant (calc_latent_heat_of_vapourisation 0)
            (100 * k.KPA_2_PA)) /
        calc_latent_heat_of_vapourisation 0)) := by ring
    rw [e]
    linarith

/-- Witness for `unassigned_net_rad_decides_transpiration`: every header constant 1, a
daily run without stress feedback, day 0. -/
theorem unassigned_net_rad_decides_transpiration_witness :
    (control.daily 0 0).sub_daily = 0 ∧
    (calculate_water_balance (consts.uniform 1) Libm.real float_eq_exact (control.daily 0 0)
        fluxes.stand met.calm_day params.stand state.stand 0 12 0 0 0).1.transpiration = 0 ∧
    (calculate_water_balance (consts.uniform 1) Libm.real float_eq_exact (control.daily 0 0)
        fluxes.stand met.calm_day params.stand state.stand 0 12 0 (-1)
        (-1)).1.transpiration < 0 :=
  ⟨rfl, unassigned_net_rad_decides_transpiration (consts.uniform 1) float_eq_exact
    (control.daily 0 0) 0 0 rfl (by norm_num [consts.uniform]) (by norm_num [consts.uniform])
    (by norm_num [consts.uniform]) (by norm_num [consts.uniform])
    (by norm_num [consts.uniform]) (by norm_num [consts.uniform])⟩

/-! ## The coefficient table, the pedotransfer functions and the topsoil -/

theorem get_soil_params_cases (soil_type : String) :
    ((soil_type ∈ texture_classes ∨ soil_type = "silt") ∧
        ∃ r : sw_coeffs α, get_soil_params soil_type = Except.ok r) ∨
      (¬ (soil_type ∈ texture_classes ∨ soil_type = "silt") ∧
        (get_soil_params soil_type : Except String (sw_coeffs α)) =
          Except.error "There are no parameters for your soil type") := by
  unfold get_soil_params prog_error
  by_cases h1 : soil_type = "clay"
  · rw [if_pos h1]
    exact Or.inl ⟨by rw [mem_texture_classes]; tauto, ⟨_, rfl⟩⟩
  rw [if_neg h1]
  by_cases h2 : soil_type = "clay_loam"
  · rw [if_pos h2]
    exact Or.inl ⟨by rw [mem_texture_classes]; tauto, ⟨_, rfl⟩⟩
  rw [if_neg h2]
  by_cases h3 : soil_type = "loam"
  · rw [if_pos h3]
    exact Or.inl ⟨by rw [mem_texture_classes]; tauto, ⟨_, rfl⟩⟩
  rw [if_neg h3]
  by_cases h4 : soil_type = "loamy_sand"
  · rw [if_pos h4]
    exact Or.inl ⟨by rw [mem_texture_classes]; tauto, ⟨_, rfl⟩⟩
  rw [if_neg h4]
  by_cases h5 : soil_type = "sand"
  · rw [if_pos h5]
    exact Or.inl ⟨by rw [mem_texture_classes]; tauto, ⟨_, rfl⟩⟩
  rw [if_neg h5]
  by_cases h6 : soil_type = "sandy_clay"
  · rw [if_pos h6]
    exact Or.inl ⟨by rw [mem_texture_classes]; tauto, ⟨_, rfl⟩⟩
  rw [if_neg h6]
  by_cases h7 : soil_type = "sandy_clay_loam"
  · rw [if_pos h7]
    exact Or.inl ⟨by rw [mem_texture_classes]; tauto, ⟨_, rfl⟩⟩
  rw [if_neg h7]
  by_cases h8 : soil_type = "sandy_loam"
  · rw [if_pos h8]
    exact Or.inl ⟨by rw [mem_texture_classes]; tauto, ⟨_, rfl⟩⟩
  rw [if_neg h8]
  by_cases h9 : soil_type = "silt"
  · rw [if_pos h9]
    exact Or.inl ⟨by rw [mem_texture_classes]; tauto, ⟨_, rfl⟩⟩
  rw [if_neg h9]
  by_cases h10 : soil_type = "silty_clay"
  · rw [if_pos h10]
    exact Or.inl ⟨by rw [mem_texture_classes]; tauto, ⟨_, rfl⟩⟩
  rw [if_neg h10]
  by_cases h11 : soil_type = "silty_clay_loam"
  · rw [if_pos h11]
    exact Or.inl ⟨by rw [mem_texture_classes]; tauto, ⟨_, rfl⟩⟩
  rw [if_neg h11]
  by_cases h12 : soil_type = "silty_loam"
  · rw [if_pos h12]
    exact Or.inl ⟨by rw [mem_texture_classes]; tauto, ⟨_, rfl⟩⟩
  rw [if_neg h12]
  exact Or.inr ⟨by rw [mem_texture_classes]; tauto, rfl⟩

/-- C21, as stated, fails: the coefficient lookup `get_soil_params` succeeds for the name
`"silt"`, which is not one of the eleven texture classes and for which the pedotransfer
lookup `get_soil_fracs` raises the fatal error. -/
theorem silt_only_in_coefficient_table :
    "silt" ∉ texture_classes ∧
    (get_soil_params "silt" : Except String (sw_coeffs ℚ)) =
      Except.ok { c_theta := 0.625, n_theta := 7.5 } ∧
    (get_soil_fracs "silt" : Except String (soil_fracs ℚ)) =
      prog_error "Could not understand soil type" := by
  refine ⟨by decide, rfl, rfl⟩

/-- C21, amended. The two tables share the eleven texture classes but not one vocabulary:
`get_soil_params` succeeds for exactly the eleven classes and the twelfth name `"silt"`,
and raises the fatal program error for every other name; `get_soil_fracs` succeeds for
exactly the eleven classes, so every name it accepts is accepted by `get_soil_params`. -/
theorem coefficient_table_vocabulary (soil_type : String) :
    ((∃ r : sw_coeffs α, get_soil_params soil_type = Except.ok r) ↔
      (soil_type ∈ texture_classes ∨ soil_type = "silt")) ∧
    (¬ (soil_type ∈ texture_classes ∨ soil_type = "silt") →
      (get_soil_params soil_type : Except String (sw_coeffs α)) =
        prog_error "There are no parameters for your soil type") ∧
    ((∃ f : soil_fracs α, get_soil_fracs soil_type = Except.ok f) ↔
      soil_type ∈ texture_classes) ∧
    ((∃ f : soil_fracs α, get_soil_fracs soil_type = Except.ok f) →
      ∃ r : sw_coeffs α, get_soil_params soil_type = Except.ok r) := by
  have hfr : (∃ f : soil_fracs α, get_soil_fracs soil_type = Except.ok f) ↔
      soil_type ∈ texture_classes := by
    rcases @get_soil_fracs_cases α _ soil_type with ⟨hmem, hok⟩ | ⟨hnot, herr⟩
    · exact ⟨fun _ => hmem, fun _ => hok⟩
    · refine ⟨?_, fun h => absurd h hnot⟩
      rintro ⟨f, hf⟩
      rw [herr] at hf
      cases hf
  rcases @get_soil_params_cases α _ soil_type with ⟨hmem, hok⟩ | ⟨hnot, herr⟩
  · exact ⟨⟨fun _ => hmem, fun _ => hok⟩, fun hn => absurd hmem hn, hfr, fun _ => hok⟩
  · refine ⟨⟨?_, fun h => absurd h hnot⟩, fun _ => herr, hfr, ?_⟩
    · rintro ⟨r, hr⟩
      rw [herr] at hr
      cases hr
    · intro hf
      exact absurd (Or.inl (hfr.mp hf)) hnot

/-- C22, as stated, fails: for the sand triple the saturated matric potential that
`calc_soil_params` computes is not `-10^(1.54 - 0.95 sand + 0.63 silt)`, and the returned
`psi_sat_mpa` is not that value times `9.81 * 0.001`; the code scales the power by 0.01. -/
theorem psi_sat_carries_a_hundredth :
    soil_psi_sat Libm.real { silt := 0.05, sand := 0.92, clay := 0.03 } ≠
      -((10 : ℝ) ^ (1.54 - 0.95 * 0.92 + 0.63 * 0.05 : ℝ)) ∧
    (calc_soil_params Libm.real { silt := 0.05, sand := 0.92, clay := 0.03 }).psi_sat_mpa ≠
      -((10 : ℝ) ^ (1.54 - 0.95 * 0.92 + 0.63 * 0.05 : ℝ)) * 9.81 * 0.001 := by
  have hy : (0 : ℝ) < (10 : ℝ) ^ (1.54 - 0.95 * 0.92 + 0.63 * 0.05 : ℝ) :=
    Real.rpow_pos_of_pos (by norm_num) _
  have h10 : (10.0 : ℝ) = 10 := by norm_num
  have hpsi : soil_psi_sat Libm.real { silt := 0.05, sand := 0.92, clay := 0.03 } =
      0.01 * -((10 : ℝ) ^ (1.54 - 0.95 * 0.92 + 0.63 * 0.05 : ℝ)) := by
    unfold soil_psi_sat
    rw [h10]
    rfl
  have hmpa : (calc_soil_params Libm.real
        { silt := 0.05, sand := 0.92, clay := 0.03 }).psi_sat_mpa =
      soil_psi_sat Libm.real { silt := 0.05, sand := 0.92, clay := 0.03 } *
        (9.81 * 0.001) := rfl
  refine ⟨?_, ?_⟩
  · rw [hpsi]
    intro h
    linarith
  · rw [hmpa, hpsi]
    intro h
    linarith

/-- C22, amended. Saturated matric potential: for every texture fraction triple,
`calc_soil_params` computes the saturated matric potential in metres of head as
`psi_sat = 0.01 * -10^(1.54 - 0.95 sand + 0.63 silt)`, uses that value in the wilting point
and field capacity ratios against `-152.9` m and `-3.364` m, and returns
`psi_sat_mpa = psi_sat * 9.81 * 0.001`. -/
theorem saturated_matric_potential (m : Libm α) (fsoil : soil_fracs α) :
    soil_psi_sat m fsoil =
        0.01 * -(m.pow 10 (1.54 - 0.95 * fsoil.sand + 0.63 * fsoil.silt)) ∧
    (calc_soil_params m fsoil).theta_wp =
        (calc_soil_params m fsoil).theta_sp *
          m.pow (soil_psi_sat m fsoil / -152.9) (1 / (calc_soil_params m fsoil).b) ∧
    (calc_soil_params m fsoil).theta_fc =
        (calc_soil_params m fsoil).theta_sp *
          m.pow (soil_psi_sat m fsoil / -3.364) (1 / (calc_soil_params m fsoil).b) ∧
    (calc_soil_params m fsoil).psi_sat_mpa = soil_psi_sat m fsoil * 9.81 * 0.001 := by
  have h10 : (10.0 : α) = 10 := by norm_num
  refine ⟨?_, ?_, ?_, ?_⟩
  · unfold soil_psi_sat
    rw [h10]
  · unfold calc_soil_params
    simp only [one_lit]
  · unfold calc_soil_params
    simp only [one_lit]
  · unfold calc_soil_params
    simp only []
    ring

/-- C23. Topsoil update: with `wcapac_topsoil ≥ 0`, after `update_water_storage` the
topsoil storage is `min(wcapac_topsoil, max(0, pawater_topsoil + rain - interception -
T * fractup_soil * wtfac_topsoil - E))`, with `T` and `E` the transpiration and soil
evaporation supplied to the call and `wtfac_topsoil` the stress factor held on entry. -/
theorem topsoil_update (m : Libm α) (float_eq : α → α → Bool) (c : control) (p : params α)
    (s : state α) (rain interception transpiration soil_evap et : α)
    (hw : 0 ≤ p.wcapac_topsoil) :
    (update_water_storage m float_eq c p s rain interception transpiration soil_evap
        et).s.pawater_topsoil =
      min p.wcapac_topsoil
        (max 0 (s.pawater_topsoil + rain - interception -
          transpiration * p.fractup_soil * s.wtfac_topsoil - soil_evap)) := by
  have e : s.pawater_topsoil + (rain - interception -
      transpiration * (p.fractup_soil * s.wtfac_topsoil) - soil_evap) =
      s.pawater_topsoil + rain - interception -
        transpiration * p.fractup_soil * s.wtfac_topsoil - soil_evap := by ring
  rw [update_pawater_topsoil, e]
  split_ifs with h1 h2
  · rw [max_eq_left (le_of_lt h1), min_eq_right hw]
  · rw [max_eq_right (not_lt.mp h1), min_eq_left (le_of_lt h2)]
  · rw [max_eq_right (not_lt.mp h1), min_eq_right (not_lt.mp h2)]

/-- Witness for `topsoil_update`: topsoil storage 1 of capacity 5, a wet day that fills
it. -/
theorem topsoil_update_witness :
    (0 : ℚ) ≤ (params.uniform (5 : ℚ)).wcapac_topsoil ∧
    (update_water_storage Libm.idle float_eq_exact (control.daily 0 0) (params.uniform 5)
        (state.uniform (1 : ℚ)) 30 2 1 1 4).s.pawater_topsoil =
      min (params.uniform (5 : ℚ)).wcapac_topsoil
        (max 0 ((state.uniform (1 : ℚ)).pawater_topsoil + 30 - 2 -
          1 * (params.uniform (5 : ℚ)).fractup_soil * (state.uniform (1 : ℚ)).wtfac_topsoil -
          1)) :=
  have h : (0 : ℚ) ≤ (params.uniform (5 : ℚ)).wcapac_topsoil := by norm_num [params.uniform]
  ⟨h, topsoil_update Libm.idle float_eq_exact (control.daily 0 0) (params.uniform 5)
    (state.uniform (1 : ℚ)) 30 2 1 1 4 h⟩

theorem update_state_stressed (m : Libm α) (float_eq : α → α → Bool) (c : control)
    (p : params α) (s : state α) (rain interception transpiration soil_evap et : α)
    (hw : c.water_stress ≠ 0) :
    ∃ s1 : state α,
      (update_water_storage m float_eq c p s rain interception transpiration soil_evap
        et).s = calculate_soil_water_fac m float_eq c p s1 ∧
      s1.psi_sat_topsoil = s.psi_sat_topsoil ∧ s1.theta_sat_topsoil = s.theta_sat_topsoil ∧
      s1.b_topsoil = s.b_topsoil ∧ s1.psi_sat_root = s.psi_sat_root ∧
      s1.theta_sat_root = s.theta_sat_root ∧ s1.b_root = s.b_root := by
  unfold update_water_storage
  simp only [hw, ne_eq, not_false_eq_true, if_true]
  exact ⟨_, rfl, rfl, rfl, rfl, rfl, rfl, rfl⟩

/-- C24. Stress feedback uses the new storages: with `water_stress` on and
`sw_stress_model` 0, 1 or 2, the stress factors in the state after `update_water_storage`
are the selected stress model applied to the fractions of the storages after the update,
`pawater_topsoil / wcapac_topsoil` and `pawater_root / wcapac_root`. -/
theorem stress_feedback_uses_new_storages (m : Libm α) (float_eq : α → α → Bool)
    (c : control) (p : params α) (s : state α)
    (rain interception transpiration soil_evap et : α) (hw : c.water_stress ≠ 0) :
    (c.sw_stress_model = 0 →
      (update_water_storage m float_eq c p s rain interception transpiration soil_evap
          et).s.wtfac_topsoil =
        m.pow ((update_water_storage m float_eq c p s rain interception transpiration
          soil_evap et).s.pawater_topsoil / p.wcapac_topsoil) p.qs ∧
      (update_water_storage m float_eq c p s rain interception transpiration soil_evap
          et).s.wtfac_root =
        m.pow ((update_water_storage m float_eq c p s rain interception transpiration
          soil_evap et).s.pawater_root / p.wcapac_root) p.qs) ∧
    (c.sw_stress_model = 1 →
      (update_water_storage m float_eq c p s rain interception transpiration soil_evap
          et).s.wtfac_topsoil =
        calc_sw_modifier m ((update_water_storage m float_eq c p s rain interception
          transpiration soil_evap et).s.pawater_topsoil / p.wcapac_topsoil)
          p.ctheta_topsoil p.ntheta_topsoil ∧
      (update_water_storage m float_eq c p s rain interception transpiration soil_evap
          et).s.wtfac_root =
        calc_sw_modifier m ((update_water_storage m float_eq c p s rain interception
          transpiration soil_evap et).s.pawater_root / p.wcapac_root)
          p.ctheta_root p.ntheta_root) ∧
    (c.sw_stress_model = 2 →
      (update_water_storage m float_eq c p s rain interception transpiration soil_evap
          et).s.wtfac_topsoil =
        m.exp (0.66 * psi_swp m float_eq ((update_water_storage m float_eq c p s rain
          interception transpiration soil_evap et).s.pawater_topsoil / p.wcapac_topsoil)
          s.psi_sat_topsoil s.theta_sat_topsoil s.b_topsoil) ∧
      (update_water_storage m float_eq c p s rain interception transpiration soil_evap
          et).s.wtfac_root =
        m.exp (0.66 * psi_swp m float_eq ((update_water_storage m float_eq c p s rain
          interception transpiration soil_evap et).s.pawater_root / p.wcapac_root)
          s.psi_sat_root s.theta_sat_root s.b_root)) := by
  obtain ⟨s1, hs, h1, h2, h3, h4, h5, h6⟩ :=
    update_state_stressed m float_eq c p s rain interception transpiration soil_evap et hw
  rw [hs, stress_keeps_pawater_topsoil, stress_keeps_pawater_root]
  refine ⟨fun hm => stress_model_0 m float_eq c p s1 hm,
    fun hm => stress_model_1 m float_eq c p s1 hm, fun hm => ?_⟩
  rw [← h1, ← h2, ← h3, ← h4, ← h5, ← h6]
  exact stress_model_2 m float_eq c p s1 hm

/-- Witness for `stress_feedback_uses_new_storages`: stress model 0 with `qs = 1` on the
reals; a dry day takes the topsoil from 1/2 to 1/4 of the capacity 1, and the new stress
factor is the new fraction, 1/4. -/
theorem stress_feedback_uses_new_storages_witness :
    (control.daily 1 0).water_stress ≠ 0 ∧
    (update_water_storage Libm.real float_eq_exact (control.daily 1 0)
        (params.uniform (1 : ℝ)) (state.uniform (1 / 2 : ℝ)) 0 0 0 (1 / 4)
        (1 / 4)).s.wtfac_topsoil =
      Libm.real.pow ((update_water_storage Libm.real float_eq_exact (control.daily 1 0)
        (params.uniform (1 : ℝ)) (state.uniform (1 / 2 : ℝ)) 0 0 0 (1 / 4)
        (1 / 4)).s.pawater_topsoil / (params.uniform (1 : ℝ)).wcapac_topsoil)
        (params.uniform (1 : ℝ)).qs :=
  have hw : (control.daily 1 0).water_stress ≠ 0 := by decide
  ⟨hw, ((stress_feedback_uses_new_storages Libm.real float_eq_exact (control.daily 1 0)
    (params.uniform (1 : ℝ)) (state.uniform (1 / 2 : ℝ)) 0 0 0 (1 / 4) (1 / 4) hw).1 rfl).1⟩

/-- C30. No assimilation, no transpiration: with `gpp = 0` (and `ca ≠ 0`, `vpd > 0`,
`daylen > 0`), `calc_stomatal_conductance` returns 0 and
`calc_transpiration_penmon_am_pm` returns `trans = 0`, `omega = 0` and
`gs_mol_m2_hfday = 0`, whatever the net radiation, wind and vapour pressure deficit. -/
theorem no_assimilation_no_transpiration (k : consts α) (m : Libm α) (p : params α)
    (s : state α) (net_rad wind ca daylen press vpd tair gpp : α) (hgpp : gpp = 0)
    (_hca : ca ≠ 0) (_hvpd : 0 < vpd) (_hd : 0 < daylen) :
    calc_stomatal_conductance k m p.g1 s.wtfac_root vpd ca (daylen / 2.0) gpp = 0 ∧
    calc_stomatal_conductance k m p.g1 s.wtfac_root vpd ca daylen gpp = 0 ∧
    (calc_transpiration_penmon_am_pm k m p s net_rad wind ca daylen press vpd tair
        gpp).trans = 0 ∧
    (calc_transpiration_penmon_am_pm k m p s net_rad wind ca daylen press vpd tair
        gpp).omega = 0 ∧
    (calc_transpiration_penmon_am_pm k m p s net_rad wind ca daylen press vpd tair
        gpp).gs_mol_m2_hfday = 0 := by
  have hgs : ∀ d : α, calc_stomatal_conductance k m p.g1 s.wtfac_root vpd ca d gpp = 0 := by
    intro d
    unfold calc_stomatal_conductance
    simp only [hgpp, zero_mul, zero_div, mul_zero]
  have hpm : ∀ ga : α, penman_monteith m vpd 0 net_rad tair press ga =
      { omega := 0, et := 0 } := by
    intro ga
    unfold penman_monteith
    simp only [zero_lit, gt_iff_lt, lt_irrefl, if_false]
  refine ⟨hgs _, hgs _, ?_, ?_, ?_⟩
  · unfold calc_transpiration_penmon_am_pm
    simp only [hgs, zero_mul, hpm]
  · unfold calc_transpiration_penmon_am_pm
    simp only [hgs, zero_mul, hpm]
  · unfold calc_transpiration_penmon_am_pm
    simp only [hgs, zero_mul]

/-- Witness for `no_assimilation_no_transpiration`: a bright windy half day with no
assimilation, on the rationals. -/
theorem no_assimilation_no_transpiration_witness :
    (0 : ℚ) = 0 ∧
    (calc_transpiration_penmon_am_pm (consts.uniform 1) Libm.idle (params.uniform 2)
        (state.uniform (1 : ℚ)) 10 2 400 12 101 1 20 0).trans = 0 ∧
    (calc_transpiration_penmon_am_pm (consts.uniform 1) Libm.idle (params.uniform 2)
        (state.uniform (1 : ℚ)) 10 2 400 12 101 1 20 0).omega = 0 :=
  have key := no_assimilation_no_transpiration (consts.uniform 1) Libm.idle
    (params.uniform 2) (state.uniform (1 : ℚ)) 10 2 400 12 101 1 20 0 rfl (by norm_num)
    (by norm_num) (by norm_num)
  ⟨rfl, key.2.2.1, key.2.2.2.1⟩

/-! ## The step `calculate_water_balance` -/

theorem update_keeps_et_sum (m : Libm α) (float_eq : α → α → Bool) (c : control)
    (p : params α) (s : state α) (rain interception transpiration soil_evap et : α)
    (h : et = transpiration + soil_evap + interception) :
    (update_water_storage m float_eq c p s rain interception transpiration soil_evap
        et).et =
      (update_water_storage m float_eq c p s rain interception transpiration soil_evap
          et).transpiration +
        (update_water_storage m float_eq c p s rain interception transpiration soil_evap
          et).soil_evap + interception := by
  have hf := update_fluxes m float_eq c p s rain interception transpiration soil_evap et
  rw [hf.1, hf.2.1, hf.2.2]
  split_ifs
  · rw [zero_add, zero_add]
  · exact h

/-- C28. Total ET stays the sum of its parts: a call of `update_water_storage` entered with
`et = transpiration + soil_evap + interception` returns values for which the equality
still holds, with and without shutdown; hence a daily step leaves the flux record with
`et = transpiration + soil_evap + interception`, and a sub-daily step keeps that equality
in the flux record when it held before the step. -/
theorem et_is_sum_of_parts (k : consts α) (m : Libm α) (float_eq : α → α → Bool)
    (c : control) (f : fluxes α) (mt : met α) (p : params α) (s : state α) (day_idx : Nat)
    (daylen : Int) (trans_leaf net_rad_am net_rad_pm : α)
    (rain interception transpiration soil_evap et : α) :
    (et = transpiration + soil_evap + interception →
      (update_water_storage m float_eq c p s rain interception transpiration soil_evap
          et).et =
        (update_water_storage m float_eq c p s rain interception transpiration soil_evap
            et).transpiration +
          (update_water_storage m float_eq c p s rain interception transpiration soil_evap
            et).soil_evap + interception) ∧
    (c.sub_daily = 0 →
      (calculate_water_balance k m float_eq c f mt p s day_idx daylen trans_leaf net_rad_am
          net_rad_pm).1.et =
        (calculate_water_balance k m float_eq c f mt p s day_idx daylen trans_leaf
            net_rad_am net_rad_pm).1.transpiration +
          (calculate_water_balance k m float_eq c f mt p s day_idx daylen trans_leaf
            net_rad_am net_rad_pm).1.soil_evap +
          (calculate_water_balance k m float_eq c f mt p s day_idx daylen trans_leaf
            net_rad_am net_rad_pm).1.interception) ∧
    (c.sub_daily ≠ 0 → f.et = f.transpiration + f.soil_evap + f.interception →
      (calculate_water_balance k m float_eq c f mt p s day_idx daylen trans_leaf net_rad_am
          net_rad_pm).1.et =
        (calculate_water_balance k m float_eq c f mt p s day_idx daylen trans_leaf
            net_rad_am net_rad_pm).1.transpiration +
          (calculate_water_balance k m float_eq c f mt p s day_idx daylen trans_leaf
            net_rad_am net_rad_pm).1.soil_evap +
          (calculate_water_balance k m float_eq c f mt p s day_idx daylen trans_leaf
            net_rad_am net_rad_pm).1.interception) := by
  refine ⟨update_keeps_et_sum m float_eq c p s rain interception transpiration soil_evap et,
    ?_, ?_⟩
  · intro hd
    unfold calculate_water_balance
    simp only [hd, ne_eq, not_true_eq_false, if_false, update_daily_water_struct]
    exact update_keeps_et_sum m float_eq c p s _ _ _ _ _ rfl
  · intro hd hf
    unfold calculate_water_balance
    simp only [hd, ne_eq, not_false_eq_true, if_true, sum_hourly_water_fluxes]
    rw [update_keeps_et_sum m float_eq c p s _ _ _ _ _ rfl, hf]
    ring

theorem half_day_mean (a b d : α) (hd : d ≠ 0) :
    (a * (60 * 60 * (d / 2)) + b * (60 * 60 * (d / 2))) * (1 / (60 * 60 * d)) =
      (a + b) / 2 := by
  field_simp
  ring

/-- C25. Daily-mean conductances: in daily mode with `daylen > 0`, the `gs_mol_m2_sec`
that `calculate_water_balance` writes is the arithmetic mean of the AM and PM stomatal
conductances per second, each given by `calc_stomatal_conductance` over half the day
length; `ga_mol_m2_sec` is the mean of the AM and PM aerodynamic conductances in
mol m-2 s-1; and `omega` is `(omega_am + omega_pm) / 2`. -/
theorem daily_mean_conductances (k : consts α) (m : Libm α) (float_eq : α → α → Bool)
    (c : control) (f : fluxes α) (mt : met α) (p : params α) (s : state α) (day_idx : Nat)
    (daylen : Int) (trans_leaf net_rad_am net_rad_pm : α) (hd : c.sub_daily = 0)
    (hlen : 0 < daylen) :
    (calculate_water_balance k m float_eq c f mt p s day_idx daylen trans_leaf net_rad_am
        net_rad_pm).1.gs_mol_m2_sec =
      (calc_stomatal_conductance k m p.g1 s.wtfac_root (mt.vpd_am day_idx)
          (mt.co2 day_idx) ((daylen : α) / 2) f.gpp_am +
        calc_stomatal_conductance k m p.g1 s.wtfac_root (mt.vpd_pm day_idx)
          (mt.co2 day_idx) ((daylen : α) / 2) f.gpp_pm) / 2 ∧
    (calculate_water_balance k m float_eq c f mt p s day_idx daylen trans_leaf net_rad_am
        net_rad_pm).1.ga_mol_m2_sec =
      (canopy_boundary_layer_conductance m p (mt.wind_am day_idx) s.canht *
          (1 / (k.MM_TO_M / (mt.press day_idx * k.KPA_2_PA /
            (k.RGAS * (mt.tam day_idx + k.DEG_TO_KELVIN))))) +
        canopy_boundary_layer_conductance m p (mt.wind_pm day_idx) s.canht *
          (1 / (k.MM_TO_M / (mt.press day_idx * k.KPA_2_PA /
            (k.RGAS * (mt.tpm day_idx + k.DEG_TO_KELVIN)))))) / 2 ∧
    (calculate_water_balance k m float_eq c f mt p s day_idx daylen trans_leaf net_rad_am
        net_rad_pm).1.omega =
      ((calc_transpiration_penmon_am_pm k m p s net_rad_am (mt.wind_am day_idx)
          (mt.co2 day_idx) (daylen : α) (mt.press day_idx * k.KPA_2_PA)
          (mt.vpd_am day_idx) (mt.tam day_idx) f.gpp_am).omega +
        (calc_transpiration_penmon_am_pm k m p s net_rad_pm (mt.wind_pm day_idx)
          (mt.co2 day_idx) (daylen : α) (mt.press day_idx * k.KPA_2_PA)
          (mt.vpd_pm day_idx) (mt.tpm day_idx) f.gpp_pm).omega) / 2 := by
  have hpos : (0 : α) < (daylen : α) := Int.cast_pos.mpr hlen
  have hne : (daylen : α) ≠ 0 := ne_of_gt hpos
  have h2 : (2.0 : α) = 2 := by norm_num
  have h60 : (60.0 : α) = 60 := by norm_num
  unfold calculate_water_balance
  simp only [hd, ne_eq, not_true_eq_false, if_false, update_daily_water_struct]
  refine ⟨?_, ?_, ?_⟩
  · unfold calc_transpiration_penmon_am_pm
    simp only [h2, h60, one_lit]
    exact half_day_mean _ _ _ hne
  · unfold calc_transpiration_penmon_am_pm
    simp only [h2, h60, one_lit]
    exact half_day_mean _ _ _ hne
  · rw [h2]

/-- Witness for `daily_mean_conductances`: a twelve hour day on the rationals. -/
theorem daily_mean_conductances_witness :
    (control.daily 0 0).sub_daily = 0 ∧ (0 : Int) < 12 ∧
    (calculate_water_balance (consts.uniform 1) Libm.idle float_eq_exact (control.daily 0 0)
        (fluxes.uniform 6) (met.uniform 2) (params.uniform 2) (state.uniform (1 : ℚ)) 0 12 0
        0 0).1.gs_mol_m2_sec =
      (calc_stomatal_conductance (consts.uniform 1) Libm.idle (params.uniform (2 : ℚ)).g1
          (state.uniform (1 : ℚ)).wtfac_root ((met.uniform (2 : ℚ)).vpd_am 0)
          ((met.uniform (2 : ℚ)).co2 0) (((12 : Int) : ℚ) / 2)
          (fluxes.uniform (6 : ℚ)).gpp_am +
        calc_stomatal_conductance (consts.uniform 1) Libm.idle (params.uniform (2 : ℚ)).g1
          (state.uniform (1 : ℚ)).wtfac_root ((met.uniform (2 : ℚ)).vpd_pm 0)
          ((met.uniform (2 : ℚ)).co2 0) (((12 : Int) : ℚ) / 2)
          (fluxes.uniform (6 : ℚ)).gpp_pm) / 2 :=
  ⟨rfl, by decide, (daily_mean_conductances (consts.uniform 1) Libm.idle float_eq_exact
    (control.daily 0 0) (fluxes.uniform 6) (met.uniform 2) (params.uniform 2)
    (state.uniform (1 : ℚ)) 0 12 0 0 0 rfl (by decide)).1⟩

/-! ## Soil evaporation and the decoupling coefficient -/

theorem soil_evap_slope_pos (tair : ℝ) (ht : -240.97 < tair) :
    0 < soil_evap_slope Libm.real tair := by
  have hD : 0 < 240.97 + tair := by linarith
  have hD1 : 0 < 240.97 + (tair + 0.1) := by linarith
  have harg : 17.502 * tair / (240.97 + tair) <
      17.502 * (tair + 0.1) / (240.97 + (tair + 0.1)) := by
    rw [div_lt_div_iff₀ hD hD1]
    nlinarith
  have hexp := Real.exp_lt_exp.mpr harg
  unfold soil_evap_slope calc_sat_water_vapour_press
  show 0 < (613.75 * Real.exp (17.502 * (tair + 0.1) / (240.97 + (tair + 0.1))) -
    613.75 * Real.exp (17.502 * tair / (240.97 + tair))) / 0.1
  apply div_pos _ (by norm_num)
  linarith

/-- C26. Soil evaporation is never negative: with `wtfac_topsoil ≥ 0`, `press > 0`, an air
temperature above `-240.97` at which the latent heat is positive, and positive header
constants `CP` and `MASS_AIR`, `calc_soil_evaporation` returns a value `≥ 0`; and it
returns exactly 0 whenever `(1 - albedo) sw_rad - (107 - 0.3 tair) ≤ 0`. -/
theorem soil_evaporation_nonneg (k : consts ℝ) (p : params ℝ) (s : state ℝ)
    (sw_rad press tair : ℝ) (hwt : 0 ≤ s.wtfac_topsoil) (hpress : 0 < press)
    (hlam : 0 < soil_evap_lambda k tair) (ht : -240.97 < tair) (hcp : 0 < k.CP)
    (hma : 0 < k.MASS_AIR) :
    0 ≤ calc_soil_evaporation k Libm.real p s sw_rad press tair ∧
    ((1 - p.albedo) * sw_rad - (107 - 0.3 * tair) ≤ 0 →
      calc_soil_evaporation k Libm.real p s sw_rad press tair = 0) := by
  have h107 : (107.0 : ℝ) = 107 := by norm_num
  have hslope := soil_evap_slope_pos tair ht
  have hgam : 0 < soil_evap_gamma k press tair := by
    unfold soil_evap_gamma
    positivity
  have hnet : 0 ≤ max (0 : ℝ) ((1 - p.albedo) * sw_rad - (107 - 0.3 * tair)) :=
    le_max_left _ _
  have hX : 0 ≤ soil_evap_slope Libm.real tair /
      (soil_evap_slope Libm.real tair + soil_evap_gamma k press tair) *
      max (0 : ℝ) ((1 - p.albedo) * sw_rad - (107 - 0.3 * tair)) /
      soil_evap_lambda k tair := by
    positivity
  refine ⟨?_, ?_⟩
  · unfold calc_soil_evaporation
    simp only [zero_lit, one_lit, h107, MAX_eq_max]
    split_ifs
    · exact mul_nonneg (mul_nonneg hX (le_of_lt (Real.exp_pos _))) hwt
    · exact mul_nonneg hX hwt
  · intro hle
    unfold calc_soil_evaporation
    simp only [zero_lit, one_lit, h107, MAX_eq_max, max_eq_left hle]
    simp only [mul_zero, zero_div, zero_mul, ite_self]

/-- Witness for `soil_evaporation_nonneg`: a bright day at 20 degrees, every header constant
1 but `H2OLV0 = 2501000`, on bare wet soil. -/
theorem soil_evaporation_nonneg_witness :
    (0 : ℝ) < soil_evap_lambda (consts.with_latent_heat 2501000) 20 ∧
    0 ≤ calc_soil_evaporation (consts.with_latent_heat 2501000) Libm.real
      (params.uniform (1 / 5 : ℝ)) (state.uniform (1 : ℝ)) 300 101 20 :=
  have hlam : (0 : ℝ) < soil_evap_lambda (consts.with_latent_heat 2501000) 20 := by
    norm_num [soil_evap_lambda, consts.with_latent_heat]
  ⟨hlam, (soil_evaporation_nonneg (consts.with_latent_heat 2501000)
    (params.uniform (1 / 5 : ℝ)) (state.uniform (1 : ℝ)) 300 101 20
    (by norm_num [state.uniform]) (by norm_num) hlam (by norm_num)
    (by norm_num [consts.with_latent_heat]) (by norm_num [consts.with_latent_heat])).1⟩

theorem omega_open (vpd gs net_rad tavg press ga : ℝ) (hgs : 0 < gs) :
    (penman_monteith Libm.real vpd gs net_rad tavg press ga).omega =
      (calc_slope_of_saturation_vapour_pressure_curve Libm.real tavg /
          calc_pyschrometric_constant (calc_latent_heat_of_vapourisation tavg) press + 1) /
        (calc_slope_of_saturation_vapour_pressure_curve Libm.real tavg /
          calc_pyschrometric_constant (calc_latent_heat_of_vapourisation tavg) press + 1 +
          ga / gs) := by
  unfold penman_monteith
  simp only [zero_lit, one_lit]
  rw [if_pos hgs]

theorem quotient_of_ne (a b : α) (h : b ≠ 0) : quotient a b = some (a / b) := by
  unfold quotient
  rw [if_neg h]

theorem quotient_by_zero (a : α) : quotient a 0 = none := by
  unfold quotient
  rw [if_pos rfl]

theorem slope_checked_of_ne (m : Libm α) (tavg : α) (h : tavg + 237.3 ≠ 0) :
    calc_slope_of_saturation_vapour_pressure_curve_checked m tavg =
      some (calc_slope_of_saturation_vapour_pressure_curve m tavg) := by
  unfold calc_slope_of_saturation_vapour_pressure_curve_checked
    calc_slope_of_saturation_vapour_pressure_curve
  simp only [quotient_of_ne _ _ h, quotient_of_ne _ _ (mul_ne_zero h h), Option.bind_eq_bind,
    Option.some_bind]

theorem slope_curve_pos (tavg : ℝ) (h : tavg + 237.3 ≠ 0) :
    0 < calc_slope_of_saturation_vapour_pressure_curve Libm.real tavg := by
  unfold calc_slope_of_saturation_vapour_pressure_curve
  show 0 < 4098.0 * (0.6108 * Real.exp (17.27 * tavg / (tavg + 237.3))) /
    ((tavg + 237.3) * (tavg + 237.3))
  have hexp := Real.exp_pos (17.27 * tavg / (tavg + 237.3))
  have hsq : 0 < (tavg + 237.3) * (tavg + 237.3) := mul_self_pos.mpr h
  positivity

theorem penman_monteith_checked_open (vpd gs net_rad tavg press ga : ℝ) (hgs : 0 < gs)
    (hga : 0 < ga) (hpress : 0 < press) (hlam : 0 < 2.501 - 0.002361 * tavg)
    (hpole : tavg + 237.3 ≠ 0) :
    penman_monteith_checked Libm.real vpd gs net_rad tavg press ga =
      some (penman_monteith Libm.real vpd gs net_rad tavg press ga) := by
  have hl : (0 : ℝ) < calc_latent_heat_of_vapourisation tavg := hlam
  have hgam : 0 < calc_pyschrometric_constant (calc_latent_heat_of_vapourisation tavg)
      press := by
    unfold calc_pyschrometric_constant
    simp only []
    positivity
  have hgamc : calc_pyschrometric_constant_checked (calc_latent_heat_of_vapourisation tavg)
      press = some (calc_pyschrometric_constant (calc_latent_heat_of_vapourisation tavg)
        press) := by
    unfold calc_pyschrometric_constant_checked calc_pyschrometric_constant
    exact quotient_of_ne _ _ (ne_of_gt (by positivity))
  have hslope := slope_curve_pos tavg hpole
  have hr : 0 < ga / gs := div_pos hga hgs
  have he : 0 < calc_slope_of_saturation_vapour_pressure_curve Libm.real tavg /
      calc_pyschrometric_constant (calc_latent_heat_of_vapourisation tavg) press :=
    div_pos hslope hgam
  unfold penman_monteith_checked penman_monteith
  simp only [zero_lit, one_lit, gt_iff_lt, hgs, if_true, hgamc,
    slope_checked_of_ne Libm.real tavg hpole, Option.bind_eq_bind, Option.some_bind,
    Option.pure_def]
  rw [quotient_of_ne _ _ (ne_of_gt hgam)]
  simp only [Option.some_bind]
  rw [quotient_of_ne _ _ (ne_of_gt hgs)]
  simp only [Option.some_bind]
  rw [quotient_of_ne _ _ (ne_of_gt (by positivity))]
  simp only [Option.some_bind]
  rw [quotient_of_ne _ _ (ne_of_gt (by positivity))]
  simp only [Option.some_bind]
  rw [quotient_of_ne _ _ (ne_of_gt hl)]
  simp only [Option.some_bind]

/-- C29, as stated, fails: `gs = 1/100`, `ga = 1/10`, `press = 101` and `tavg = -237.3`
meet its hypotheses (the latent heat there is positive), but the slope of the saturation
curve divides by `t * t = 0`, so `penman_monteith` returns no number for `omega`, and none
that lies between 0 and 1. -/
theorem decoupling_undefined_at_pole :
    (0 : ℝ) < 1 / 100 ∧ (0 : ℝ) < 1 / 10 ∧ (0 : ℝ) < 101 ∧
    (0 : ℝ) < 2.501 - 0.002361 * (-237.3) ∧
    calc_slope_of_saturation_vapour_pressure_curve_checked Libm.real (-237.3) = none ∧
    penman_monteith_checked Libm.real 1 (1 / 100) 12 (-237.3) 101 (1 / 10) = none ∧
    ¬ ∃ r : pm_result ℝ,
      penman_monteith_checked Libm.real 1 (1 / 100) 12 (-237.3) 101 (1 / 10) = some r ∧
        0 < r.omega ∧ r.omega < 1 := by
  have ht : (-237.3 + 237.3 : ℝ) = 0 := by norm_num
  have hslope : calc_slope_of_saturation_vapour_pressure_curve_checked Libm.real (-237.3) =
      none := by
    unfold calc_slope_of_saturation_vapour_pressure_curve_checked
    simp only [ht, quotient_by_zero, Option.bind_eq_bind, Option.none_bind]
  have hgamc : ∃ g : ℝ, calc_pyschrometric_constant_checked
      (calc_latent_heat_of_vapourisation (-237.3)) 101 = some g := by
    unfold calc_pyschrometric_constant_checked calc_latent_heat_of_vapourisation
    exact ⟨_, quotient_of_ne _ _ (by norm_num)⟩
  have hnone : penman_monteith_checked Libm.real 1 (1 / 100) 12 (-237.3) 101 (1 / 10) =
      none := by
    obtain ⟨g, hg⟩ := hgamc
    have hgs : (1 / 100 : ℝ) > 0.0 := by norm_num
    unfold penman_monteith_checked
    simp only [hgs, if_true, hg, hslope, Option.bind_eq_bind, Option.some_bind,
      Option.none_bind]
  refine ⟨by norm_num, by norm_num, by norm_num, by norm_num, hslope, hnone, ?_⟩
  rintro ⟨r, hr, _⟩
  rw [hnone] at hr
  cases hr

/-- C29, amended. Decoupling coefficient range: for `gs > 0`, `ga > 0`, `press > 0` and an
air temperature other than `-237.3` at which the latent heat `2.501 - 0.002361 T` is
positive, every quotient of `penman_monteith` has a non-zero divisor and the `omega` it
returns satisfies `0 < omega < 1`; it is strictly larger for a smaller ratio `ga / gs` at
the same temperature and pressure, and `1 - omega ≤ ga / gs`, so it tends to 1 as the
ratio tends to 0. -/
theorem decoupling_range (vpd gs net_rad tavg press ga : ℝ) (hgs : 0 < gs) (hga : 0 < ga)
    (hpress : 0 < press) (hlam : 0 < 2.501 - 0.002361 * tavg) (hpole : tavg ≠ -237.3) :
    penman_monteith_checked Libm.real vpd gs net_rad tavg press ga =
      some (penman_monteith Libm.real vpd gs net_rad tavg press ga) ∧
    0 < (penman_monteith Libm.real vpd gs net_rad tavg press ga).omega ∧
    (penman_monteith Libm.real vpd gs net_rad tavg press ga).omega < 1 ∧
    1 - (penman_monteith Libm.real vpd gs net_rad tavg press ga).omega ≤ ga / gs ∧
    (∀ vpd2 gs2 net_rad2 ga2 : ℝ, 0 < gs2 → 0 < ga2 → ga2 / gs2 < ga / gs →
      (penman_monteith Libm.real vpd gs net_rad tavg press ga).omega <
        (penman_monteith Libm.real vpd2 gs2 net_rad2 tavg press ga2).omega) := by
  have ht : tavg + 237.3 ≠ 0 := by
    intro h
    apply hpole
    linarith
  refine ⟨penman_monteith_checked_open vpd gs net_rad tavg press ga hgs hga hpress hlam ht,
    ?_⟩
  have hgam : 0 < calc_pyschrometric_constant (calc_latent_heat_of_vapourisation tavg)
      press := by
    unfold calc_pyschrometric_constant calc_latent_heat_of_vapourisation
    simp only []
    positivity
  have he : 0 < calc_slope_of_saturation_vapour_pressure_curve Libm.real tavg /
      calc_pyschrometric_constant (calc_latent_heat_of_vapourisation tavg) press :=
    div_pos (slope_curve_pos tavg ht) hgam
  have hr : 0 < ga / gs := div_pos hga hgs
  rw [omega_open vpd gs net_rad tavg press ga hgs]
  have hopen2 : ∀ vpd2 gs2 net_rad2 ga2 : ℝ, 0 < gs2 →
      (penman_monteith Libm.real vpd2 gs2 net_rad2 tavg press ga2).omega =
        (calc_slope_of_saturation_vapour_pressure_curve Libm.real tavg /
            calc_pyschrometric_constant (calc_latent_heat_of_vapourisation tavg) press + 1) /
          (calc_slope_of_saturation_vapour_pressure_curve Libm.real tavg /
            calc_pyschrometric_constant (calc_latent_heat_of_vapourisation tavg) press + 1 +
            ga2 / gs2) :=
    fun vpd2 gs2 net_rad2 ga2 h => omega_open vpd2 gs2 net_rad2 tavg press ga2 h
  generalize calc_slope_of_saturation_vapour_pressure_curve Libm.real tavg /
      calc_pyschrometric_constant (calc_latent_heat_of_vapourisation tavg) press = e
    at he hopen2
  refine ⟨by positivity, ?_, ?_, ?_⟩
  · rw [div_lt_one (by positivity)]
    linarith
  · have hden : 0 < e + 1 + ga / gs := by positivity
    have h1 : 1 - (e + 1) / (e + 1 + ga / gs) = ga / gs / (e + 1 + ga / gs) := by
      field_simp
    rw [h1]
    exact div_le_self (le_of_lt hr) (by linarith)
  · intro vpd2 gs2 net_rad2 ga2 hgs2 hga2 hlt
    rw [hopen2 vpd2 gs2 net_rad2 ga2 hgs2]
    have hr2 : 0 < ga2 / gs2 := div_pos hga2 hgs2
    have ha : 0 < e + 1 := by positivity
    have hb : 0 < e + 1 + ga2 / gs2 := by positivity
    have hbc : e + 1 + ga2 / gs2 < e + 1 + ga / gs := by linarith
    exact div_lt_div_of_pos_left ha hb hbc

/-- Witness for `decoupling_range`: `gs = 1/100`, `ga = 1/10`, 20 degrees, 101 kPa. -/
theorem decoupling_range_witness :
    (0 : ℝ) < 2.501 - 0.002361 * 20 ∧ (20 : ℝ) ≠ -237.3 ∧
    penman_monteith_checked Libm.real 1 (1 / 100) 12 20 101 (1 / 10) =
      some (penman_monteith Libm.real 1 (1 / 100) 12 20 101 (1 / 10)) ∧
    0 < (penman_monteith Libm.real 1 (1 / 100) 12 20 101 (1 / 10)).omega ∧
    (penman_monteith Libm.real 1 (1 / 100) 12 20 101 (1 / 10)).omega < 1 :=
  have key := decoupling_range 1 (1 / 100) 12 20 101 (1 / 10) (by norm_num) (by norm_num)
    (by norm_num) (by norm_num) (by norm_num)
  ⟨by norm_num, by norm_num, key.1, key.2.1, key.2.2.1⟩

/-! ## The Landsberg and Waring coefficients at initialisation -/

theorem initialise_capacities_keeps (m : Libm α) (c : control) (p p1 : params α)
    (h : initialise_capacities m c p = Except.ok p1) :
    p1.ctheta_topsoil = p.ctheta_topsoil ∧ p1.ntheta_topsoil = p.ntheta_topsoil ∧
      p1.ctheta_root = p.ctheta_root ∧ p1.ntheta_root = p.ntheta_root ∧
      p1.topsoil_type = p.topsoil_type ∧ p1.rootsoil_type = p.rootsoil_type := by
  unfold initialise_capacities at h
  by_cases hc : c.calc_sw_params ≠ 0
  · rw [if_pos hc] at h
    cases hA : (get_soil_fracs p.topsoil_type : Except String (soil_fracs α)) with
    | error e =>
      rw [hA] at h
      cases h
    | ok ft =>
      cases hB : (get_soil_fracs p.rootsoil_type : Except String (soil_fracs α)) with
      | error e =>
        rw [hA, hB] at h
        cases h
      | ok fr =>
        rw [hA, hB] at h
        cases h
        exact ⟨rfl, rfl, rfl, rfl, rfl, rfl⟩
  · rw [if_neg hc] at h
    cases h
    exact ⟨rfl, rfl, rfl, rfl, rfl, rfl⟩

theorem initialise_sw_modifier_spec (p q : params α)
    (h : initialise_sw_modifier p = Except.ok q) :
    ((p.ctheta_topsoil < -900 ∧ p.ntheta_topsoil < -900 ∧ p.ctheta_root < -900 ∧
        p.ntheta_root < -900) →
      ∃ top root : sw_coeffs α,
        get_soil_params p.topsoil_type = Except.ok top ∧
        get_soil_params p.rootsoil_type = Except.ok root ∧
        q.ctheta_topsoil = top.c_theta ∧ q.ntheta_topsoil = top.n_theta ∧
        q.ctheta_root = root.c_theta ∧ q.ntheta_root = root.n_theta) ∧
    (¬ (p.ctheta_topsoil < -900 ∧ p.ntheta_topsoil < -900 ∧ p.ctheta_root < -900 ∧
        p.ntheta_root < -900) →
      q.ctheta_topsoil = p.ctheta_topsoil ∧ q.ntheta_topsoil = p.ntheta_topsoil ∧
        q.ctheta_root = p.ctheta_root ∧ q.ntheta_root = p.ntheta_root) := by
  have h900 : (-900.0 : α) = -900 := by norm_num
  unfold initialise_sw_modifier at h
  rw [h900] at h
  by_cases hc : p.ctheta_topsoil < -900 ∧ p.ntheta_topsoil < -900 ∧
      p.ctheta_root < -900 ∧ p.ntheta_root < -900
  · rw [if_pos hc] at h
    refine ⟨fun _ => ?_, fun hn => absurd hc hn⟩
    cases hA : (get_soil_params p.topsoil_type : Except String (sw_coeffs α)) with
    | error e =>
      rw [hA] at h
      cases h
    | ok top =>
      rw [hA] at h
      simp only [] at h
      cases hB : (get_soil_params p.rootsoil_type : Except String (sw_coeffs α)) with
      | error e =>
        rw [hB] at h
        cases h
      | ok root =>
        rw [hB] at h
        cases h
        exact ⟨top, root, rfl, rfl, rfl, rfl, rfl, rfl⟩
  · rw [if_neg hc] at h
    cases h
    exact ⟨fun hy => absurd hy hc, fun _ => ⟨rfl, rfl, rfl, rfl⟩⟩

/-- C27. User-supplied Landsberg and Waring coefficients are kept: when
`initialise_soil_moisture_parameters` returns, it has replaced `ctheta_topsoil`,
`ntheta_topsoil`, `ctheta_root` and `ntheta_root` by the table values of the layers'
texture classes if all four were below `-900` (not user-supplied), and otherwise it has
left all four as they were; in particular every coefficient that is not below `-900` is
unchanged. -/
theorem landsberg_waring_coefficients (m : Libm α) (c : control) (p q : params α)
    (h : initialise_soil_moisture_parameters m c p = Except.ok q) :
    ((p.ctheta_topsoil < -900 ∧ p.ntheta_topsoil < -900 ∧ p.ctheta_root < -900 ∧
        p.ntheta_root < -900) →
      ∃ top root : sw_coeffs α,
        get_soil_params p.topsoil_type = Except.ok top ∧
        get_soil_params p.rootsoil_type = Except.ok root ∧
        q.ctheta_topsoil = top.c_theta ∧ q.ntheta_topsoil = top.n_theta ∧
        q.ctheta_root = root.c_theta ∧ q.ntheta_root = root.n_theta) ∧
    (¬ (p.ctheta_topsoil < -900 ∧ p.ntheta_topsoil < -900 ∧ p.ctheta_root < -900 ∧
        p.ntheta_root < -900) →
      q.ctheta_topsoil = p.ctheta_topsoil ∧ q.ntheta_topsoil = p.ntheta_topsoil ∧
        q.ctheta_root = p.ctheta_root ∧ q.ntheta_root = p.ntheta_root) ∧
    (¬ (p.ctheta_topsoil < -900) → q.ctheta_topsoil = p.ctheta_topsoil) ∧
    (¬ (p.ntheta_topsoil < -900) → q.ntheta_topsoil = p.ntheta_topsoil) ∧
    (¬ (p.ctheta_root < -900) → q.ctheta_root = p.ctheta_root) ∧
    (¬ (p.ntheta_root < -900) → q.ntheta_root = p.ntheta_root) := by
  unfold initialise_soil_moisture_parameters at h
  cases hA : initialise_capacities m c p with
  | error e =>
    rw [hA] at h
    cases h
  | ok p1 =>
    rw [hA] at h
    simp only [] at h
    obtain ⟨k1, k2, k3, k4, k5, k6⟩ := initialise_capacities_keeps m c p p1 hA
    have hs := initialise_sw_modifier_spec p1 q h
    rw [k1, k2, k3, k4, k5, k6] at hs
    refine ⟨hs.1, hs.2, ?_, ?_, ?_, ?_⟩
    · exact fun hn => (hs.2 (fun hall => hn hall.1)).1
    · exact fun hn => (hs.2 (fun hall => hn hall.2.1)).2.1
    · exact fun hn => (hs.2 (fun hall => hn hall.2.2.1)).2.2.1
    · exact fun hn => (hs.2 (fun hall => hn hall.2.2.2)).2.2.2

theorem initialise_looks_up (m : Libm α) (c : control) (p : params α) (top root : sw_coeffs α)
    (hc : c.calc_sw_params = 0)
    (hall : p.ctheta_topsoil < -900 ∧ p.ntheta_topsoil < -900 ∧ p.ctheta_root < -900 ∧
      p.ntheta_root < -900)
    (ht : get_soil_params p.topsoil_type = Except.ok top)
    (hr : get_soil_params p.rootsoil_type = Except.ok root) :
    ∃ q : params α, initialise_soil_moisture_parameters m c p = Except.ok q := by
  have h900 : (-900.0 : α) = -900 := by norm_num
  unfold initialise_soil_moisture_parameters initialise_capacities
  simp only [hc, ne_eq, not_true_eq_false, if_false]
  unfold initialise_sw_modifier
  rw [h900, if_pos hall, ht]
  simp only []
  rw [hr]
  exact ⟨_, rfl⟩

theorem get_soil_params_loam :
    (get_soil_params "loam" : Except String (sw_coeffs α)) =
      Except.ok { c_theta := 0.55, n_theta := 6.0 } := by
  rfl

/-- Witness for `landsberg_waring_coefficients`: all four coefficients hold `-999` on loam;
the initialisation returns and has looked up `c_theta = 0.55` and `n_theta = 6`. -/
theorem landsberg_waring_coefficients_witness :
    ∃ q : params ℚ,
      initialise_soil_moisture_parameters Libm.idle (control.daily 1 1)
          (params.uniform (-999 : ℚ)) = Except.ok q ∧
        q.ctheta_topsoil = 0.55 ∧ q.ntheta_root = 6 := by
  have hall : (params.uniform (-999 : ℚ)).ctheta_topsoil < -900 ∧
      (params.uniform (-999 : ℚ)).ntheta_topsoil < -900 ∧
      (params.uniform (-999 : ℚ)).ctheta_root < -900 ∧
      (params.uniform (-999 : ℚ)).ntheta_root < -900 := by
    norm_num [params.uniform]
  obtain ⟨q, hq⟩ := initialise_looks_up Libm.idle (control.daily 1 1)
    (params.uniform (-999 : ℚ)) _ _ rfl hall get_soil_params_loam get_soil_params_loam
  obtain ⟨top, root, ht, hr, h1, _, _, h4⟩ :=
    (landsberg_waring_coefficients Libm.idle (control.daily 1 1)
      (params.uniform (-999 : ℚ)) q hq).1 hall
  have ht2 : (get_soil_params "loam" : Except String (sw_coeffs ℚ)) = Except.ok top := ht
  have hr2 : (get_soil_params "loam" : Except String (sw_coeffs ℚ)) = Except.ok root := hr
  rw [get_soil_params_loam] at ht2 hr2
  cases ht2
  cases hr2
  refine ⟨q, hq, h1, ?_⟩
  rw [h4]
  norm_num

/-! ## Interception against rainfall -/

theorem infiltration_eq (p : params α) (s : state α) (rain : α) :
    calc_infiltration p s rain =
      (if 0 < s.lai then rain * p.intercep_frac * min 1 (s.lai / p.max_intercep_lai)
        else 0) := by
  unfold calc_infiltration
  simp only [zero_lit, one_lit, MIN_eq_min, gt_iff_lt]

/-- C31. Interception never exceeds rainfall: for `rain ≥ 0`, `0 ≤ intercep_frac ≤ 1`,
`max_intercep_lai > 0` and any `LAI`, `calc_infiltration` returns a value `i` with
`0 ≤ i ≤ rain * intercep_frac ≤ rain`; so the net input `rain - i` is non-negative, and it
is what the root pool of `update_water_storage` receives before transpiration and soil
evaporation are taken from it. -/
theorem interception_within_rain (p : params α) (s : state α) (rain : α) (hrain : 0 ≤ rain)
    (hf0 : 0 ≤ p.intercep_frac) (hf1 : p.intercep_frac ≤ 1) (hmax : 0 < p.max_intercep_lai) :
    0 ≤ calc_infiltration p s rain ∧
    calc_infiltration p s rain ≤ rain * p.intercep_frac ∧
    rain * p.intercep_frac ≤ rain ∧
    0 ≤ rain - calc_infiltration p s rain ∧
    (∀ transpiration soil_evap : α,
      root_before_runoff s rain (calc_infiltration p s rain) transpiration soil_evap =
        s.pawater_root + (rain - calc_infiltration p s rain) - transpiration -
          soil_evap) := by
  have hrf : 0 ≤ rain * p.intercep_frac := mul_nonneg hrain hf0
  have hle : rain * p.intercep_frac ≤ rain := by
    calc rain * p.intercep_frac ≤ rain * 1 := mul_le_mul_of_nonneg_left hf1 hrain
      _ = rain := mul_one rain
  have hi : 0 ≤ calc_infiltration p s rain ∧
      calc_infiltration p s rain ≤ rain * p.intercep_frac := by
    rw [infiltration_eq]
    split_ifs with hlai
    · have hq : 0 ≤ s.lai / p.max_intercep_lai :=
        div_nonneg (le_of_lt hlai) (le_of_lt hmax)
      have hm0 : 0 ≤ min 1 (s.lai / p.max_intercep_lai) := le_min zero_le_one hq
      have hm1 : min 1 (s.lai / p.max_intercep_lai) ≤ 1 := min_le_left _ _
      refine ⟨mul_nonneg hrf hm0, ?_⟩
      calc rain * p.intercep_frac * min 1 (s.lai / p.max_intercep_lai)
          ≤ rain * p.intercep_frac * 1 := mul_le_mul_of_nonneg_left hm1 hrf
        _ = rain * p.intercep_frac := mul_one _
    · exact ⟨le_refl 0, hrf⟩
  refine ⟨hi.1, hi.2, hle, by linarith [hi.2], ?_⟩
  intro transpiration soil_evap
  unfold root_before_runoff
  ring

/-- Witness for `interception_within_rain`: 10 mm of rain on a canopy of `LAI = 2` that
intercepts at most a fifth of it and saturates at `LAI = 3`. -/
theorem interception_within_rain_witness :
    (0 : ℚ) < (params.canopy (1 / 5) 3).max_intercep_lai ∧
    0 ≤ calc_infiltration (params.canopy (1 / 5 : ℚ) 3) (state.uniform 2) 10 ∧
    calc_infiltration (params.canopy (1 / 5 : ℚ) 3) (state.uniform 2) 10 ≤
      10 * (params.canopy (1 / 5 : ℚ) 3).intercep_frac :=
  have hmax : (0 : ℚ) < (params.canopy (1 / 5) 3).max_intercep_lai := by
    norm_num [params.canopy]
  have key := interception_within_rain (params.canopy (1 / 5 : ℚ) 3) (state.uniform 2) 10
    (by norm_num) (by norm_num [params.canopy]) (by norm_num [params.canopy]) hmax
  ⟨hmax, key.1, key.2.1⟩

end GDAY
